import Mathlib

/-!
# The Gen2 collection pass of the Shelly plug exporter

A shallow embedding of `src/shellyplug/prober.gen2.go`.

* Go maps of type `prometheus.Labels` are reference values.  They live in a heap
  (`World.maps`); a map variable of the source is an index into that heap, so that
  `copyLabelMap` and the in-place assignment `m[k] = v` keep their meaning.
* Every observable action of the pass (a gauge write, a call to the device prober,
  a log line, a call to the discovery service) is appended to `World.trace`.
* The answers of the device are inputs: `ShellyProberGen2` holds, for every call
  the pass can make, the result that call returns.
-/

namespace Gen2

/-! ## Values and label maps -/

/-- A float64 gauge value.  The pass hands measurement values through unchanged, so a
float64 is represented by the number it denotes (NaN and the infinities aside). -/
abbrev Float64 := ℚ

/-- The contents of one `prometheus.Labels` map (a Go `map[string]string`): the
bindings, at most one of which is visible per key (the first). -/
abbrev Labels := List (String × String)

/-- The map read `m[k]` with the comma-ok result. -/
def Labels.get : Labels → String → Option String
  | [], _ => none
  | (k', v) :: rest, k => if k' = k then some v else Labels.get rest k

/-- The map assignment `m[k] = v`: an existing binding of `k` is replaced, a new key
is added. -/
def Labels.assign : Labels → String → String → Labels
  | [], k, v => [(k, v)]
  | (k', v') :: rest, k, v =>
    if k' = k then (k, v) :: rest else (k', v') :: Labels.assign rest k v

/-- The keys bound in a map. -/
def Labels.keys (m : Labels) : List String := m.map Prod.fst

/-- Two contents denote the same Go map: the same keys with the same values.  A gauge
vector addresses its children by the label map, not by the order of the bindings. -/
def Labels.same (a b : Labels) : Bool :=
  (Labels.keys a ++ Labels.keys b).all (fun k => Labels.get a k == Labels.get b k)

/-- The heap read: the contents of the map at address `r` (an address that was never
allocated reads as the empty map, as a nil map does in Go). -/
def heapRead : List Labels → Nat → Labels
  | [], _ => []
  | m :: _, 0 => m
  | _ :: ms, n + 1 => heapRead ms n

/-- The heap update: the map at address `r` is replaced by `f` of its contents. -/
def heapUpdate : List Labels → Nat → (Labels → Labels) → List Labels
  | [], _, _ => []
  | m :: ms, 0, f => f m :: ms
  | m :: ms, n + 1, f => m :: heapUpdate ms n f

/-! ## Observable actions -/

/-- The gauge vectors of `sp.prometheus` that the Gen2 pass writes. -/
inductive Family
  | info
  | sysUnixtime
  | sysUptime
  | sysMemTotal
  | sysMemFree
  | sysFsSize
  | sysFsFree
  | restartRequired
  | wifiRssi
  | switchOn
  | powerCurrent
  | powerApparentCurrent
  | powerTotal
  | powerFactor
  | powerFrequency
  | powerVoltage
  | temp
  deriving DecidableEq, Repr

/-- The health states of `discovery`; the pass only ever passes `TargetUnhealthy`. -/
inductive TargetStatus
  | TargetHealthy
  | TargetUnhealthy
  deriving DecidableEq, Repr

/-- The calls the pass makes on `shellyProber`. -/
inductive Call
  | GetShellyConfig
  | GetSysStatus
  | GetWifiStatus
  | GetSwitchStatus (id : Int)
  | GetEmStatus (id : Int)
  | GetTemperatureStatus (id : Int)
  deriving DecidableEq, Repr

/-- One observable action of the pass. -/
inductive Event
  /-- The write `sp.prometheus.<family>.With(labels).Set(value)`; `labels` is the
  contents of the label map at the moment of the call. -/
  | gauge (family : Family) (labels : Labels) (value : Float64)
  /-- A call to the device prober. -/
  | call (c : Call)
  /-- The log line written by `logger.Errorf`. -/
  | errorf (msg : String)
  /-- The call `discovery.ServiceDiscovery.MarkTarget(address, status)`. -/
  | markTarget (address : String) (status : TargetStatus)
  deriving DecidableEq

/-- The state a pass runs in: the heap of label maps and the actions so far. -/
structure World where
  maps : List Labels
  trace : List Event

/-- The contents of the label map at address `r`. -/
def World.labelsAt (w : World) (r : Nat) : Labels := heapRead w.maps r

/-- Appends one action to the trace. -/
def World.emit (w : World) (e : Event) : World :=
  { w with trace := w.trace ++ [e] }

/-- The statement `m[k] = v` on the label map at address `r`. -/
def World.setLabel (w : World) (r : Nat) (k v : String) : World :=
  { w with maps := heapUpdate w.maps r (fun m => Labels.assign m k v) }

/-- The statement `sp.prometheus.<family>.With(m).Set(value)` for the map at `r`. -/
def World.gaugeSet (w : World) (family : Family) (r : Nat) (value : Float64) : World :=
  w.emit (Event.gauge family (w.labelsAt r) value)

/-- Modelled from the spec: `copyLabelMap` is defined outside this file; label sets
"are copied (never mutated in place across sibling emissions)".  It allocates a new
map with the bindings of the original and returns its address. -/
def copyLabelMap (w : World) (orig : Nat) : Nat × World :=
  (w.maps.length, { w with maps := w.maps ++ [w.labelsAt orig] })

/-- Modelled from the spec: `boolToFloat64` is defined outside this file; a boolean is
published "as 0/1". -/
def boolToFloat64 (b : Bool) : Float64 := if b then 1 else 0

/-- The test `strings.HasPrefix(s, pre)`. -/
def HasPrefix (s pre : String) : Bool := pre.data.isPrefixOf s.data

/-! ## The device configuration and its decoding -/

/-- A JSON value as `encoding/json` decodes it into an `interface{}`.  A number is split
by the text `json.Marshal` writes for it: `int` for an integer literal, `float` for
every other number. -/
inductive Json
  | null
  | bool (b : Bool)
  | int (n : Int)
  | float (x : Float64)
  | str (s : String)
  | arr (items : List Json)
  | obj (members : List (String × Json))

/-- The struct `shellyGen2ConfigValue` (lines 15-20). -/
structure shellyGen2ConfigValue where
  Id : Int
  Name : String
  deriving DecidableEq, Repr

/-- A Go `error` value: `none` is nil, `some msg` an error with that text. -/
abbrev GoError := Option String

/-- The text `json.Marshal(val)` produces, kept as the tree it denotes.  Every value that
came out of a JSON document encodes again, so the error is nil. -/
def jsonMarshal (val : Json) : Json × GoError := (val, none)

/-- The field of `shellyGen2ConfigValue` a JSON member name selects; `encoding/json`
matches the tags `id` and `name` without regard to letter case. -/
def fieldOf (key : String) : Option Bool :=
  if key.data.map Char.toLower = "id".data then some true
  else if key.data.map Char.toLower = "name".data then some false
  else none

/-- Stores one member value into the field `Id int`: null leaves the field as it is, an
integer literal that fits 64 bits is stored, every other value is a type error. -/
def unmarshalId (v : Json) (ret : shellyGen2ConfigValue) : shellyGen2ConfigValue × GoError :=
  match v with
  | Json.null => (ret, none)
  | Json.int n =>
    if -(2 : Int) ^ 63 ≤ n ∧ n < (2 : Int) ^ 63 then ({ ret with Id := n }, none)
    else (ret, some "json: cannot unmarshal number into Go struct field .id of type int")
  | _ => (ret, some "json: cannot unmarshal value into Go struct field .id of type int")

/-- Stores one member value into the field `Name string`: null leaves the field as it
is, a string is stored, every other value is a type error. -/
def unmarshalName (v : Json) (ret : shellyGen2ConfigValue) : shellyGen2ConfigValue × GoError :=
  match v with
  | Json.null => (ret, none)
  | Json.str s => ({ ret with Name := s }, none)
  | _ => (ret, some "json: cannot unmarshal value into Go struct field .name of type string")

/-- Decodes the members of an object in their order.  A member that selects no field is
skipped; a type error does not stop the decoding, and the first one is the error
returned. -/
def unmarshalMembers :
    List (String × Json) → shellyGen2ConfigValue → GoError → shellyGen2ConfigValue × GoError
  | [], ret, err => (ret, err)
  | (key, v) :: rest, ret, err =>
    match fieldOf key with
    | some true =>
      unmarshalMembers rest (unmarshalId v ret).1 (if err.isSome then err else (unmarshalId v ret).2)
    | some false =>
      unmarshalMembers rest (unmarshalName v ret).1
        (if err.isSome then err else (unmarshalName v ret).2)
    | none => unmarshalMembers rest ret err

/-- The call `json.Unmarshal(data, &ret)` for a `shellyGen2ConfigValue`: null leaves
`ret` untouched, an object is decoded member by member, every other document is a type
error. -/
def jsonUnmarshal (data : Json) (ret : shellyGen2ConfigValue) : shellyGen2ConfigValue × GoError :=
  match data with
  | Json.null => (ret, none)
  | Json.obj members => unmarshalMembers members ret none
  | _ => (ret, some "json: cannot unmarshal value into Go value of type shellyGen2ConfigValue")

/-- The function `decodeShellyConfigValueToItem` (lines 149-159). -/
def decodeShellyConfigValueToItem (val : Json) : shellyGen2ConfigValue × GoError :=
  let ret : shellyGen2ConfigValue := { Id := 0, Name := "" }
  match jsonMarshal val with
  | (_, some err) => (ret, some err)
  | (data, none) => jsonUnmarshal data ret

/-! ## The answers of the device -/

/-- The fields of the system status the pass reads (the record is declared by package
`shellyprober`); the source converts each number with `float64(...)`. -/
structure SysStatus where
  Unixtime : Int
  Uptime : Int
  RAMSize : Int
  RAMFree : Int
  FsSize : Int
  FsFree : Int
  RestartRequired : Bool

/-- The fields of the wifi status the pass reads. -/
structure WifiStatus where
  Ssid : String
  Rssi : Int

/-- The fields of a switch status the pass reads. -/
structure SwitchStatus where
  Output : Bool
  Source : String
  Current : Float64
  Apower : Float64

/-- The fields of an energy meter status the pass reads. -/
structure EmStatus where
  ACurrent : Float64
  AAprtPower : Float64
  AActPower : Float64
  APf : Float64
  AFreq : Float64
  AVoltage : Float64
  BCurrent : Float64
  BAprtPower : Float64
  BActPower : Float64
  BPf : Float64
  BFreq : Float64
  BVoltage : Float64
  CCurrent : Float64
  CAprtPower : Float64
  CActPower : Float64
  CPf : Float64
  CFreq : Float64
  CVoltage : Float64
  TotalCurrent : Float64
  TotalActPower : Float64

/-- The field of a temperature status the pass reads. -/
structure TemperatureStatus where
  TC : Float64

/-- The prober `shellyprober.ShellyProberGen2` as the pass sees it: for every call, the
result the device gives (`error msg` when the call returns a non-nil error whose text
is `msg`).  `GetShellyConfig` gives the entries of the config map in the order in which
the `range` loop visits them. -/
structure ShellyProberGen2 where
  GetShellyConfig : Except String (List (String × Json))
  GetSysStatus : Except String SysStatus
  GetWifiStatus : Except String WifiStatus
  GetSwitchStatus : Int → Except String SwitchStatus
  GetEmStatus : Int → Except String EmStatus
  GetTemperatureStatus : Int → Except String TemperatureStatus

/-- The receiver `sp` with the globals the pass reads: the prober built from `sp.client`,
`sp.ctx` and `globalCache`, and whether `discovery.ServiceDiscovery` is non-nil. -/
structure ShellyPlug where
  shellyProber : ShellyProberGen2
  ServiceDiscovery : Bool

/-- The argument `target`; the pass reads its address. -/
structure DiscoveryTarget where
  Address : String

/-! ## The pass -/

/-- The block `// systemStatus` (lines 33-44). -/
def collectSysStatus (sp : ShellyPlug) (targetLabels : Nat) (w : World) : World :=
  let w := w.emit (Event.call Call.GetSysStatus)
  match sp.shellyProber.GetSysStatus with
  | Except.ok result =>
    let w := w.gaugeSet Family.sysUnixtime targetLabels (result.Unixtime : Float64)
    let w := w.gaugeSet Family.sysUptime targetLabels (result.Uptime : Float64)
    let w := w.gaugeSet Family.sysMemTotal targetLabels (result.RAMSize : Float64)
    let w := w.gaugeSet Family.sysMemFree targetLabels (result.RAMFree : Float64)
    let w := w.gaugeSet Family.sysFsSize targetLabels (result.FsSize : Float64)
    let w := w.gaugeSet Family.sysFsFree targetLabels (result.FsFree : Float64)
    w.gaugeSet Family.restartRequired targetLabels (boolToFloat64 result.RestartRequired)
  | Except.error err => w.emit (Event.errorf ("failed to decode sysConfig: " ++ err))

/-- The block `// wifiStatus` (lines 46-53). -/
def collectWifiStatus (sp : ShellyPlug) (targetLabels : Nat) (w : World) : World :=
  let w := w.emit (Event.call Call.GetWifiStatus)
  match sp.shellyProber.GetWifiStatus with
  | Except.ok result =>
    let wifiLabels := (copyLabelMap w targetLabels).1
    let w := (copyLabelMap w targetLabels).2
    let w := w.setLabel wifiLabels "ssid" result.Ssid
    w.gaugeSet Family.wifiRssi wifiLabels (result.Rssi : Float64)
  | Except.error err => w.emit (Event.errorf ("failed to decode wifiStatus: " ++ err))

/-- The case `// switch` of the loop body (lines 59-78). -/
def collectSwitch (sp : ShellyPlug) (targetLabels : Nat) (configValue : Json) (w : World) :
    World :=
  match decodeShellyConfigValueToItem configValue with
  | (configData, none) =>
    let w := w.emit (Event.call (Call.GetSwitchStatus configData.Id))
    match sp.shellyProber.GetSwitchStatus configData.Id with
    | Except.ok result =>
      let switchLabels := (copyLabelMap w targetLabels).1
      let w := (copyLabelMap w targetLabels).2
      let w := w.setLabel switchLabels "id" ("switch:" ++ toString configData.Id)
      let w := w.setLabel switchLabels "name" configData.Name
      let switchOnLabels := (copyLabelMap w switchLabels).1
      let w := (copyLabelMap w switchLabels).2
      let w := w.setLabel switchOnLabels "source" result.Source
      let w := w.gaugeSet Family.switchOn switchOnLabels (boolToFloat64 result.Output)
      let powerUsageLabels := (copyLabelMap w targetLabels).1
      let w := (copyLabelMap w targetLabels).2
      let w := w.setLabel powerUsageLabels "id" ("switch:" ++ toString configData.Id)
      let w := w.setLabel powerUsageLabels "name" configData.Name
      let w := w.gaugeSet Family.powerCurrent powerUsageLabels result.Current
      w.gaugeSet Family.powerTotal powerUsageLabels result.Apower
    | Except.error err => w.emit (Event.errorf ("failed to decode switchStatus: " ++ err))
  | (_, some _) => w

/-- The case `// em` of the loop body (lines 81-125). -/
def collectEm (sp : ShellyPlug) (targetLabels : Nat) (configValue : Json) (w : World) :
    World :=
  match decodeShellyConfigValueToItem configValue with
  | (configData, none) =>
    let w := w.emit (Event.call (Call.GetEmStatus configData.Id))
    match sp.shellyProber.GetEmStatus configData.Id with
    | Except.ok result =>
      -- phase A
      let powerUsageLabels := (copyLabelMap w targetLabels).1
      let w := (copyLabelMap w targetLabels).2
      let w := w.setLabel powerUsageLabels "id" ("em:" ++ toString configData.Id ++ ":A")
      let w := w.setLabel powerUsageLabels "name" configData.Name
      let w := w.gaugeSet Family.powerCurrent powerUsageLabels result.ACurrent
      let w := w.gaugeSet Family.powerApparentCurrent powerUsageLabels result.AAprtPower
      let w := w.gaugeSet Family.powerTotal powerUsageLabels result.AActPower
      let w := w.gaugeSet Family.powerFactor powerUsageLabels result.APf
      let w := w.gaugeSet Family.powerFrequency powerUsageLabels result.AFreq
      let w := w.gaugeSet Family.powerVoltage powerUsageLabels result.AVoltage
      -- phase B
      let powerUsageLabels := (copyLabelMap w targetLabels).1
      let w := (copyLabelMap w targetLabels).2
      let w := w.setLabel powerUsageLabels "id" ("em:" ++ toString configData.Id ++ ":B")
      let w := w.setLabel powerUsageLabels "name" configData.Name
      let w := w.gaugeSet Family.powerCurrent powerUsageLabels result.BCurrent
      let w := w.gaugeSet Family.powerApparentCurrent powerUsageLabels result.BAprtPower
      let w := w.gaugeSet Family.powerTotal powerUsageLabels result.BActPower
      let w := w.gaugeSet Family.powerFactor powerUsageLabels result.BPf
      let w := w.gaugeSet Family.powerFrequency powerUsageLabels result.BFreq
      let w := w.gaugeSet Family.powerVoltage powerUsageLabels result.BVoltage
      -- phase C
      let powerUsageLabels := (copyLabelMap w targetLabels).1
      let w := (copyLabelMap w targetLabels).2
      let w := w.setLabel powerUsageLabels "id" ("em:" ++ toString configData.Id ++ ":C")
      let w := w.setLabel powerUsageLabels "name" configData.Name
      let w := w.gaugeSet Family.powerCurrent powerUsageLabels result.CCurrent
      let w := w.gaugeSet Family.powerApparentCurrent powerUsageLabels result.CAprtPower
      let w := w.gaugeSet Family.powerTotal powerUsageLabels result.CActPower
      let w := w.gaugeSet Family.powerFactor powerUsageLabels result.CPf
      let w := w.gaugeSet Family.powerFrequency powerUsageLabels result.CFreq
      let w := w.gaugeSet Family.powerVoltage powerUsageLabels result.CVoltage
      -- the block after phase C (lines 116-121)
      let powerUsageLabels := (copyLabelMap w targetLabels).1
      let w := (copyLabelMap w targetLabels).2
      let w := w.setLabel powerUsageLabels "id" "em:total"
      let w := w.setLabel powerUsageLabels "name" configData.Name
      let w := w.gaugeSet Family.powerCurrent powerUsageLabels result.TotalCurrent
      w.gaugeSet Family.powerTotal powerUsageLabels result.TotalActPower
    | Except.error err => w.emit (Event.errorf ("failed to decode switchStatus: " ++ err))
  | (_, some _) => w

/-- The case `// temperatureSensor` of the loop body (lines 128-138). -/
def collectTemperature (sp : ShellyPlug) (targetLabels : Nat) (configValue : Json)
    (w : World) : World :=
  match decodeShellyConfigValueToItem configValue with
  | (configData, none) =>
    let w := w.emit (Event.call (Call.GetTemperatureStatus configData.Id))
    match sp.shellyProber.GetTemperatureStatus configData.Id with
    | Except.ok result =>
      let tempLabels := (copyLabelMap w targetLabels).1
      let w := (copyLabelMap w targetLabels).2
      let w := w.setLabel tempLabels "id" ("sensor:" ++ toString configData.Id)
      let w := w.setLabel tempLabels "name" configData.Name
      w.gaugeSet Family.temp tempLabels result.TC
    | Except.error err =>
      w.emit (Event.errorf ("failed to decode temperatureStatus: " ++ err))
  | (_, some _) => w

/-- The body of the loop over the config entries (lines 56-139): the first case whose
test holds is taken, and an entry that matches none is passed over. -/
def collectConfigEntry (sp : ShellyPlug) (targetLabels : Nat) (entry : String × Json)
    (w : World) : World :=
  if HasPrefix entry.1 "switch:" then collectSwitch sp targetLabels entry.2 w
  else if HasPrefix entry.1 "em:" then collectEm sp targetLabels entry.2 w
  else if HasPrefix entry.1 "temperature:" then collectTemperature sp targetLabels entry.2 w
  else w

/-- The loop `for configName, configValue := range shellyConfig` (lines 55-140). -/
def collectConfig (sp : ShellyPlug) (targetLabels : Nat) (shellyConfig : List (String × Json))
    (w : World) : World :=
  shellyConfig.foldl (fun w entry => collectConfigEntry sp targetLabels entry w) w

/-- The method `collectFromTargetGen2` (lines 22-147); `infoLabels` and `targetLabels`
are the addresses of the two label maps passed in. -/
def collectFromTargetGen2 (sp : ShellyPlug) (target : DiscoveryTarget)
    (infoLabels targetLabels : Nat) (w : World) : World :=
  let w := w.gaugeSet Family.info infoLabels 1
  let w := w.emit (Event.call Call.GetShellyConfig)
  match sp.shellyProber.GetShellyConfig with
  | Except.ok shellyConfig =>
    let w := collectSysStatus sp targetLabels w
    let w := collectWifiStatus sp targetLabels w
    collectConfig sp targetLabels shellyConfig w
  | Except.error err =>
    let w := w.emit (Event.errorf ("failed to fetch status: " ++ err))
    if sp.ServiceDiscovery then
      w.emit (Event.markTarget target.Address TargetStatus.TargetUnhealthy)
    else w

/-! ## Reading a trace -/

/-- The gauge writes of a trace, in order. -/
def samples (tr : List Event) : List (Family × Labels × Float64) :=
  tr.filterMap (fun e =>
    match e with
    | Event.gauge f l v => some (f, l, v)
    | _ => none)

/-- The value a gauge child holds after the writes of a trace: the last value written to
that family under that label map, if any. -/
def gaugeValue (tr : List Event) (family : Family) (labels : Labels) : Option Float64 :=
  tr.foldl (fun cur e =>
    match e with
    | Event.gauge f l v => if f = family ∧ Labels.same l labels = true then some v else cur
    | _ => cur) none

/-- The actions a step adds to the trace. -/
def newEvents (before after : World) : List Event := after.trace.drop before.trace.length

/-! ## The actions of each step as a function of the target labels -/

/-- The gauge writes of one phase of an energy meter (six samples under one label map). -/
def phaseEvents (labels : Labels) (current aprt act pf freq voltage : Float64) : List Event :=
  [Event.gauge Family.powerCurrent labels current,
    Event.gauge Family.powerApparentCurrent labels aprt,
    Event.gauge Family.powerTotal labels act,
    Event.gauge Family.powerFactor labels pf,
    Event.gauge Family.powerFrequency labels freq,
    Event.gauge Family.powerVoltage labels voltage]

/-- The label map `copy(targetLabels)` with `id` and `name` assigned, as the switch, em
and temperature cases build it. -/
def componentLabels (tl : Labels) (id name : String) : Labels :=
  Labels.assign (Labels.assign tl "id" id) "name" name

/-- The actions of the system status block, given the contents of the target labels. -/
def sysEvents (sp : ShellyPlug) (tl : Labels) : List Event :=
  Event.call Call.GetSysStatus ::
    (match sp.shellyProber.GetSysStatus with
    | Except.ok result =>
      [Event.gauge Family.sysUnixtime tl (result.Unixtime : Float64),
        Event.gauge Family.sysUptime tl (result.Uptime : Float64),
        Event.gauge Family.sysMemTotal tl (result.RAMSize : Float64),
        Event.gauge Family.sysMemFree tl (result.RAMFree : Float64),
        Event.gauge Family.sysFsSize tl (result.FsSize : Float64),
        Event.gauge Family.sysFsFree tl (result.FsFree : Float64),
        Event.gauge Family.restartRequired tl (boolToFloat64 result.RestartRequired)]
    | Except.error err => [Event.errorf ("failed to decode sysConfig: " ++ err)])

/-- The actions of the wifi status block, given the contents of the target labels. -/
def wifiEvents (sp : ShellyPlug) (tl : Labels) : List Event :=
  Event.call Call.GetWifiStatus ::
    (match sp.shellyProber.GetWifiStatus with
    | Except.ok result =>
      [Event.gauge Family.wifiRssi (Labels.assign tl "ssid" result.Ssid) (result.Rssi : Float64)]
    | Except.error err => [Event.errorf ("failed to decode wifiStatus: " ++ err)])

/-- The actions of the switch case, given the contents of the target labels. -/
def switchEvents (sp : ShellyPlug) (tl : Labels) (configValue : Json) : List Event :=
  match decodeShellyConfigValueToItem configValue with
  | (configData, none) =>
    Event.call (Call.GetSwitchStatus configData.Id) ::
      (match sp.shellyProber.GetSwitchStatus configData.Id with
      | Except.ok result =>
        [Event.gauge Family.switchOn
            (Labels.assign
              (componentLabels tl ("switch:" ++ toString configData.Id) configData.Name)
              "source" result.Source)
            (boolToFloat64 result.Output),
          Event.gauge Family.powerCurrent
            (componentLabels tl ("switch:" ++ toString configData.Id) configData.Name)
            result.Current,
          Event.gauge Family.powerTotal
            (componentLabels tl ("switch:" ++ toString configData.Id) configData.Name)
            result.Apower]
      | Except.error err => [Event.errorf ("failed to decode switchStatus: " ++ err)])
  | (_, some _) => []

/-- The actions of the em case, given the contents of the target labels. -/
def emEvents (sp : ShellyPlug) (tl : Labels) (configValue : Json) : List Event :=
  match decodeShellyConfigValueToItem configValue with
  | (configData, none) =>
    Event.call (Call.GetEmStatus configData.Id) ::
      (match sp.shellyProber.GetEmStatus configData.Id with
      | Except.ok result =>
        phaseEvents
            (componentLabels tl ("em:" ++ toString configData.Id ++ ":A") configData.Name)
            result.ACurrent result.AAprtPower result.AActPower result.APf result.AFreq
            result.AVoltage ++
          phaseEvents
            (componentLabels tl ("em:" ++ toString configData.Id ++ ":B") configData.Name)
            result.BCurrent result.BAprtPower result.BActPower result.BPf result.BFreq
            result.BVoltage ++
          phaseEvents
            (componentLabels tl ("em:" ++ toString configData.Id ++ ":C") configData.Name)
            result.CCurrent result.CAprtPower result.CActPower result.CPf result.CFreq
            result.CVoltage ++
          [Event.gauge Family.powerCurrent (componentLabels tl "em:total" configData.Name)
              result.TotalCurrent,
            Event.gauge Family.powerTotal (componentLabels tl "em:total" configData.Name)
              result.TotalActPower]
      | Except.error err => [Event.errorf ("failed to decode switchStatus: " ++ err)])
  | (_, some _) => []

/-- The actions of the temperature case, given the contents of the target labels. -/
def temperatureEvents (sp : ShellyPlug) (tl : Labels) (configValue : Json) : List Event :=
  match decodeShellyConfigValueToItem configValue with
  | (configData, none) =>
    Event.call (Call.GetTemperatureStatus configData.Id) ::
      (match sp.shellyProber.GetTemperatureStatus configData.Id with
      | Except.ok result =>
        [Event.gauge Family.temp
          (componentLabels tl ("sensor:" ++ toString configData.Id) configData.Name) result.TC]
      | Except.error err => [Event.errorf ("failed to decode temperatureStatus: " ++ err)])
  | (_, some _) => []

/-- The actions of one loop iteration, given the contents of the target labels. -/
def entryEvents (sp : ShellyPlug) (tl : Labels) (entry : String × Json) : List Event :=
  if HasPrefix entry.1 "switch:" then switchEvents sp tl entry.2
  else if HasPrefix entry.1 "em:" then emEvents sp tl entry.2
  else if HasPrefix entry.1 "temperature:" then temperatureEvents sp tl entry.2
  else []

/-! ## Reading a trace, continued -/

/-- The calls to the device prober in a trace, in order. -/
def calls (tr : List Event) : List Call :=
  tr.filterMap (fun e =>
    match e with
    | Event.call c => some c
    | _ => none)

/-- The calls to `MarkTarget` in a trace, in order. -/
def markCalls (tr : List Event) : List (String × TargetStatus) :=
  tr.filterMap (fun e =>
    match e with
    | Event.markTarget a s => some (a, s)
    | _ => none)

/-- The log lines of a trace, in order. -/
def logLines (tr : List Event) : List String :=
  tr.filterMap (fun e =>
    match e with
    | Event.errorf msg => some msg
    | _ => none)

/-! ## Inputs used in the examples -/

/-- The config value with the two members `id` and `name`. -/
def configItem (id : Int) (name : String) : Json :=
  Json.obj [("id", Json.int id), ("name", Json.str name)]

/-- A world at the start of a pass: the info labels at address 0, the target labels at
address 1, nothing done yet. -/
def startWorld (infoLabels targetLabels : Labels) : World :=
  { maps := [infoLabels, targetLabels], trace := [] }

/-- A device that answers no call: every call returns the error `timeout`. -/
def deadProber : ShellyProberGen2 :=
  { GetShellyConfig := Except.error "timeout"
    GetSysStatus := Except.error "timeout"
    GetWifiStatus := Except.error "timeout"
    GetSwitchStatus := fun _ => Except.error "timeout"
    GetEmStatus := fun _ => Except.error "timeout"
    GetTemperatureStatus := fun _ => Except.error "timeout" }

/-- A device with the given config that answers every status call. -/
def liveProber (cfg : List (String × Json)) : ShellyProberGen2 :=
  { GetShellyConfig := Except.ok cfg
    GetSysStatus := Except.ok
      { Unixtime := 1700000000, Uptime := 3600, RAMSize := 262144, RAMFree := 131072,
        FsSize := 524288, FsFree := 262144, RestartRequired := false }
    GetWifiStatus := Except.ok { Ssid := "home", Rssi := -60 }
    GetSwitchStatus := fun _ =>
      Except.ok { Output := true, Source := "schedule", Current := 1 / 2, Apower := 110 }
    GetEmStatus := fun id =>
      Except.ok
        { ACurrent := 1, AAprtPower := 2, AActPower := 3, APf := 4, AFreq := 50, AVoltage := 230
          BCurrent := 5, BAprtPower := 6, BActPower := 7, BPf := 8, BFreq := 50, BVoltage := 231
          CCurrent := 9, CAprtPower := 10, CActPower := 11, CPf := 12, CFreq := 50
          CVoltage := 232
          TotalCurrent := if id = 0 then 15 else 16
          TotalActPower := if id = 0 then 21 else 22 }
    GetTemperatureStatus := fun _ => Except.ok { TC := 21 } }

/-! ## The actions of a step -/

/-- The actions one loop iteration adds to the trace. -/
def entryActions (sp : ShellyPlug) (targetLabels : Nat) (entry : String × Json) (w : World) :
    List Event :=
  newEvents w (collectConfigEntry sp targetLabels entry w)

/-- The actions one pass adds to the trace. -/
def passActions (sp : ShellyPlug) (target : DiscoveryTarget) (infoLabels targetLabels : Nat)
    (w : World) : List Event :=
  newEvents w (collectFromTargetGen2 sp target infoLabels targetLabels w)

/-! ## Units of a pass -/

/-- A unit of a pass: what one status call of the prober serves. -/
inductive StatusUnit
  | sys
  | wifi
  | switch (id : Int)
  | em (id : Int)
  | temperature (id : Int)
  deriving DecidableEq, Repr

/-- The plug whose device fails the status call of unit `u` with error `err` and answers
every other call as before. -/
def failUnit (sp : ShellyPlug) (u : StatusUnit) (err : String) : ShellyPlug :=
  match u with
  | StatusUnit.sys =>
    { sp with shellyProber := { sp.shellyProber with GetSysStatus := Except.error err } }
  | StatusUnit.wifi =>
    { sp with shellyProber := { sp.shellyProber with GetWifiStatus := Except.error err } }
  | StatusUnit.switch id =>
    { sp with shellyProber := { sp.shellyProber with
        GetSwitchStatus := fun i => if i = id then Except.error err
          else sp.shellyProber.GetSwitchStatus i } }
  | StatusUnit.em id =>
    { sp with shellyProber := { sp.shellyProber with
        GetEmStatus := fun i => if i = id then Except.error err
          else sp.shellyProber.GetEmStatus i } }
  | StatusUnit.temperature id =>
    { sp with shellyProber := { sp.shellyProber with
        GetTemperatureStatus := fun i => if i = id then Except.error err
          else sp.shellyProber.GetTemperatureStatus i } }

/-- The unit a config entry belongs to: the status call its loop iteration makes, if it
makes one. -/
def entryUnit (entry : String × Json) : Option StatusUnit :=
  match decodeShellyConfigValueToItem entry.2 with
  | (configData, none) =>
    if HasPrefix entry.1 "switch:" then some (StatusUnit.switch configData.Id)
    else if HasPrefix entry.1 "em:" then some (StatusUnit.em configData.Id)
    else if HasPrefix entry.1 "temperature:" then some (StatusUnit.temperature configData.Id)
    else none
  | (_, some _) => none

/-- The actions of one step of the pass run on its own: in a world that holds nothing
but the target labels (at address 0), with an empty trace. -/
def stepRun (step : Nat → World → World) (targetLabels : Labels) : List Event :=
  (step 0 { maps := [targetLabels], trace := [] }).trace

/-- The plug with the config map replaced. -/
def withConfig (sp : ShellyPlug) (cfg : List (String × Json)) : ShellyPlug :=
  { sp with shellyProber := { sp.shellyProber with GetShellyConfig := Except.ok cfg } }

/-- The families the component cases of the loop write to. -/
def componentFamilies : List Family :=
  [Family.switchOn, Family.powerCurrent, Family.powerApparentCurrent, Family.powerTotal,
    Family.powerFactor, Family.powerFrequency, Family.powerVoltage, Family.temp]

/-- The component samples of a trace: its samples in the component families. -/
def componentSamples (tr : List Event) : List (Family × Labels × Float64) :=
  (samples tr).filter (fun s => decide (s.1 ∈ componentFamilies))

/-- The plug of the end-to-end example: the config holds `switch:0` (kettle) and `em:1`
(meter), the switch reports output true, source schedule, current 0.5 and apower 110,
and every field of the em status is populated. -/
def examplePlug : ShellyPlug :=
  { shellyProber :=
      liveProber [("switch:0", configItem 0 "kettle"), ("em:1", configItem 1 "meter")]
    ServiceDiscovery := true }

/-- The label keys a family adds to the target labels: none for the sys families (and
none for info, which is written under the info labels), `ssid` for wifi.rssi, `id`,
`name` and `source` for switch.on, `id` and `name` for the power families and the
temperature. -/
def addedKeys : Family → List String
  | Family.wifiRssi => ["ssid"]
  | Family.switchOn => ["id", "name", "source"]
  | Family.powerCurrent => ["id", "name"]
  | Family.powerApparentCurrent => ["id", "name"]
  | Family.powerTotal => ["id", "name"]
  | Family.powerFactor => ["id", "name"]
  | Family.powerFrequency => ["id", "name"]
  | Family.powerVoltage => ["id", "name"]
  | Family.temp => ["id", "name"]
  | _ => []

/-- The label keys of a gauge write are those of the target labels and the keys its
family adds; other actions carry no labels. -/
def keysFrom (tl : Labels) (e : Event) : Prop :=
  match e with
  | Event.gauge f l _ => f ≠ Family.info ∧
      ∀ k, k ∈ Labels.keys l ↔ (k ∈ Labels.keys tl ∨ k ∈ addedKeys f)
  | _ => True

/-! ## The heap of label maps -/

theorem heapRead_append_left (h e : List Labels) (i : Nat) (hi : i < h.length) :
    heapRead (h ++ e) i = heapRead h i := by
  induction h generalizing i with
  | nil => simp at hi
  | cons m ms ih =>
    cases i with
    | zero => rfl
    | succ n =>
      have hn : n < ms.length := by simpa using hi
      simpa [heapRead] using ih n hn

theorem heapRead_append_right (h e : List Labels) (k : Nat) :
    heapRead (h ++ e) (h.length + k) = heapRead e k := by
  induction h with
  | nil => simp
  | cons m ms ih =>
    have : (m :: ms).length + k = (ms.length + k) + 1 := by simp; omega
    rw [this]
    simpa [heapRead] using ih

theorem heapRead_append_length (h e : List Labels) :
    heapRead (h ++ e) h.length = heapRead e 0 := by
  simpa using heapRead_append_right h e 0

theorem heapUpdate_append_right (h e : List Labels) (k : Nat) (f : Labels → Labels) :
    heapUpdate (h ++ e) (h.length + k) f = h ++ heapUpdate e k f := by
  induction h with
  | nil => simp
  | cons m ms ih =>
    have : (m :: ms).length + k = (ms.length + k) + 1 := by simp; omega
    rw [this]
    simpa [heapUpdate] using ih

theorem heapUpdate_append_length (h e : List Labels) (f : Labels → Labels) :
    heapUpdate (h ++ e) h.length f = h ++ heapUpdate e 0 f := by
  simpa using heapUpdate_append_right h e 0 f


theorem collectSysStatus_spec (sp : ShellyPlug) (r : Nat) (w : World) :
    (collectSysStatus sp r w).trace = w.trace ++ sysEvents sp (w.labelsAt r) ∧
      (collectSysStatus sp r w).maps = w.maps := by
  unfold collectSysStatus sysEvents
  rcases hf : sp.shellyProber.GetSysStatus with e | res <;>
    simp [World.emit, World.gaugeSet, World.labelsAt]

theorem collectWifiStatus_spec (sp : ShellyPlug) (r : Nat) (w : World) :
    (collectWifiStatus sp r w).trace = w.trace ++ wifiEvents sp (w.labelsAt r) ∧
      ∃ extra, (collectWifiStatus sp r w).maps = w.maps ++ extra := by
  unfold collectWifiStatus wifiEvents
  rcases hf : sp.shellyProber.GetWifiStatus with e | res
  · exact ⟨by simp [World.emit], [], by simp [World.emit]⟩
  · simp [World.emit, World.gaugeSet, World.setLabel, World.labelsAt, copyLabelMap,
      heapRead_append_length, heapUpdate_append_length, heapRead, heapUpdate]

theorem collectSwitch_spec (sp : ShellyPlug) (r : Nat) (v : Json) (w : World)
    (hr : r < w.maps.length) :
    (collectSwitch sp r v w).trace = w.trace ++ switchEvents sp (w.labelsAt r) v ∧
      ∃ extra, (collectSwitch sp r v w).maps = w.maps ++ extra := by
  unfold collectSwitch switchEvents
  rcases hd : decodeShellyConfigValueToItem v with ⟨cd, _ | e⟩
  · rcases hf : sp.shellyProber.GetSwitchStatus cd.Id with e | res
    · exact ⟨by simp [hf, World.emit], [], by simp [hf, World.emit]⟩
    · simp [hf, World.emit, World.gaugeSet, World.setLabel, World.labelsAt, copyLabelMap,
        heapRead_append_left, heapRead_append_right, heapRead_append_length,
        heapUpdate_append_right, heapUpdate_append_length, hr, heapRead, heapUpdate,
        componentLabels]
  · exact ⟨by simp, [], by simp⟩

theorem collectEm_spec (sp : ShellyPlug) (r : Nat) (v : Json) (w : World)
    (hr : r < w.maps.length) :
    (collectEm sp r v w).trace = w.trace ++ emEvents sp (w.labelsAt r) v ∧
      ∃ extra, (collectEm sp r v w).maps = w.maps ++ extra := by
  unfold collectEm emEvents
  rcases hd : decodeShellyConfigValueToItem v with ⟨cd, _ | e⟩
  · rcases hf : sp.shellyProber.GetEmStatus cd.Id with e | res
    · exact ⟨by simp [hf, World.emit], [], by simp [hf, World.emit]⟩
    · simp [hf, World.emit, World.gaugeSet, World.setLabel, World.labelsAt, copyLabelMap,
        heapRead_append_left, heapRead_append_right, heapRead_append_length,
        heapUpdate_append_right, heapUpdate_append_length, hr, heapRead, heapUpdate,
        componentLabels, phaseEvents]
  · exact ⟨by simp, [], by simp⟩

theorem collectTemperature_spec (sp : ShellyPlug) (r : Nat) (v : Json) (w : World) :
    (collectTemperature sp r v w).trace = w.trace ++ temperatureEvents sp (w.labelsAt r) v ∧
      ∃ extra, (collectTemperature sp r v w).maps = w.maps ++ extra := by
  unfold collectTemperature temperatureEvents
  rcases hd : decodeShellyConfigValueToItem v with ⟨cd, _ | e⟩
  · rcases hf : sp.shellyProber.GetTemperatureStatus cd.Id with e | res
    · exact ⟨by simp [hf, World.emit], [], by simp [hf, World.emit]⟩
    · simp [hf, World.emit, World.gaugeSet, World.setLabel, World.labelsAt, copyLabelMap,
        heapRead_append_left, heapRead_append_right, heapRead_append_length,
        heapUpdate_append_right, heapUpdate_append_length, heapRead, heapUpdate,
        componentLabels]
  · exact ⟨by simp, [], by simp⟩

theorem collectConfigEntry_spec (sp : ShellyPlug) (r : Nat) (e : String × Json) (w : World)
    (hr : r < w.maps.length) :
    (collectConfigEntry sp r e w).trace = w.trace ++ entryEvents sp (w.labelsAt r) e ∧
      ∃ extra, (collectConfigEntry sp r e w).maps = w.maps ++ extra := by
  unfold collectConfigEntry entryEvents
  by_cases h1 : HasPrefix e.1 "switch:" = true
  · simpa [h1] using collectSwitch_spec sp r e.2 w hr
  · by_cases h2 : HasPrefix e.1 "em:" = true
    · simpa [h1, h2] using collectEm_spec sp r e.2 w hr
    · by_cases h3 : HasPrefix e.1 "temperature:" = true
      · simpa [h1, h2, h3] using collectTemperature_spec sp r e.2 w
      · exact ⟨by simp [h1, h2, h3], [], by simp [h1, h2, h3]⟩

theorem collectConfig_spec (sp : ShellyPlug) (r : Nat) (cfg : List (String × Json)) (w : World)
    (hr : r < w.maps.length) :
    (collectConfig sp r cfg w).trace =
        w.trace ++ cfg.flatMap (entryEvents sp (w.labelsAt r)) ∧
      ∃ extra, (collectConfig sp r cfg w).maps = w.maps ++ extra := by
  induction cfg generalizing w with
  | nil => exact ⟨by simp [collectConfig], [], by simp [collectConfig]⟩
  | cons e rest ih =>
    obtain ⟨ht, x, hx⟩ := collectConfigEntry_spec sp r e w hr
    have hr2 : r < (collectConfigEntry sp r e w).maps.length := by
      rw [hx]; simp; omega
    have hl : (collectConfigEntry sp r e w).labelsAt r = w.labelsAt r := by
      simp [World.labelsAt, hx, heapRead_append_left, hr]
    obtain ⟨ht2, y, hy⟩ := ih (collectConfigEntry sp r e w) hr2
    have hstep : collectConfig sp r (e :: rest) w =
        collectConfig sp r rest (collectConfigEntry sp r e w) := by
      simp [collectConfig]
    refine ⟨?_, x ++ y, ?_⟩
    · rw [hstep, ht2, ht, hl]; simp
    · rw [hstep, hy, hx]; simp

theorem collectFromTargetGen2_ok (sp : ShellyPlug) (target : DiscoveryTarget) (il r : Nat)
    (w : World) (cfg : List (String × Json)) (hr : r < w.maps.length)
    (hc : sp.shellyProber.GetShellyConfig = Except.ok cfg) :
    (collectFromTargetGen2 sp target il r w).trace =
        w.trace ++ (Event.gauge Family.info (w.labelsAt il) 1 :: Event.call Call.GetShellyConfig ::
          (sysEvents sp (w.labelsAt r) ++ wifiEvents sp (w.labelsAt r) ++
            cfg.flatMap (entryEvents sp (w.labelsAt r)))) ∧
      ∃ extra, (collectFromTargetGen2 sp target il r w).maps = w.maps ++ extra := by
  unfold collectFromTargetGen2
  simp only [hc]
  set w1 := (w.gaugeSet Family.info il 1).emit (Event.call Call.GetShellyConfig) with hw1
  have m1 : w1.maps = w.maps := by simp [hw1, World.gaugeSet, World.emit]
  have t1 : w1.trace = w.trace ++ [Event.gauge Family.info (w.labelsAt il) 1,
      Event.call Call.GetShellyConfig] := by simp [hw1, World.gaugeSet, World.emit]
  obtain ⟨t2, m2⟩ := collectSysStatus_spec sp r w1
  obtain ⟨t3, x, m3⟩ := collectWifiStatus_spec sp r (collectSysStatus sp r w1)
  have l1 : w1.labelsAt r = w.labelsAt r := by simp [World.labelsAt, m1]
  have l2 : (collectSysStatus sp r w1).labelsAt r = w.labelsAt r := by
    simp [World.labelsAt, m2, m1]
  have hr3 : r < (collectWifiStatus sp r (collectSysStatus sp r w1)).maps.length := by
    rw [m3, m2, m1]; simp; omega
  have l3 : (collectWifiStatus sp r (collectSysStatus sp r w1)).labelsAt r = w.labelsAt r := by
    simp [World.labelsAt, m3, m2, m1, heapRead_append_left, hr]
  obtain ⟨t4, y, m4⟩ :=
    collectConfig_spec sp r cfg (collectWifiStatus sp r (collectSysStatus sp r w1)) hr3
  refine ⟨?_, x ++ y, ?_⟩
  · rw [t4, t3, t2, t1, l3, l2, l1]; simp
  · rw [m4, m3, m2, m1]; simp

theorem collectFromTargetGen2_error (sp : ShellyPlug) (target : DiscoveryTarget) (il r : Nat)
    (w : World) (err : String) (hc : sp.shellyProber.GetShellyConfig = Except.error err) :
    (collectFromTargetGen2 sp target il r w).trace =
        w.trace ++ ([Event.gauge Family.info (w.labelsAt il) 1, Event.call Call.GetShellyConfig,
          Event.errorf ("failed to fetch status: " ++ err)] ++
          (if sp.ServiceDiscovery = true then
            [Event.markTarget target.Address TargetStatus.TargetUnhealthy] else [])) ∧
      (collectFromTargetGen2 sp target il r w).maps = w.maps := by
  unfold collectFromTargetGen2
  simp only [hc]
  by_cases hs : sp.ServiceDiscovery = true <;> simp [hs, World.gaugeSet, World.emit]

/-! ### Label maps -/

theorem Labels.get_assign_same (m : Labels) (k v : String) :
    Labels.get (Labels.assign m k v) k = some v := by
  induction m with
  | nil => simp [Labels.assign, Labels.get]
  | cons p rest ih =>
    obtain ⟨k', v'⟩ := p
    by_cases h : k' = k
    · simp [Labels.assign, Labels.get, h]
    · simp [Labels.assign, Labels.get, h, ih]

theorem Labels.get_assign_ne (m : Labels) (k v j : String) (h : j ≠ k) :
    Labels.get (Labels.assign m k v) j = Labels.get m j := by
  induction m with
  | nil => simp [Labels.assign, Labels.get, h.symm]
  | cons p rest ih =>
    obtain ⟨k', v'⟩ := p
    by_cases hk : k' = k
    · subst hk
      simp [Labels.assign, Labels.get, h.symm]
    · by_cases hj : k' = j
      · subst hj
        simp [Labels.assign, Labels.get, hk]
      · simp [Labels.assign, Labels.get, hk, hj, ih]

theorem Labels.mem_keys_assign (m : Labels) (k v j : String) :
    j ∈ Labels.keys (Labels.assign m k v) ↔ j ∈ Labels.keys m ∨ j = k := by
  induction m with
  | nil => simp [Labels.assign, Labels.keys]
  | cons p rest ih =>
    obtain ⟨k', v'⟩ := p
    by_cases hk : k' = k
    · subst hk
      simp [Labels.assign, Labels.keys]
      tauto
    · have ih2 : j ∈ List.map Prod.fst (Labels.assign rest k v) ↔
          j ∈ List.map Prod.fst rest ∨ j = k := ih
      simp only [Labels.assign, Labels.keys, hk, if_false, List.map_cons, List.mem_cons, ih2]
      tauto

theorem Labels.get_eq_none_of_not_mem (m : Labels) (k : String) (h : k ∉ Labels.keys m) :
    Labels.get m k = none := by
  induction m with
  | nil => rfl
  | cons p rest ih =>
    obtain ⟨k', v'⟩ := p
    simp only [Labels.keys, List.map_cons, List.mem_cons, not_or] at h
    have h1 : k' ≠ k := fun e => h.1 e.symm
    simp [Labels.get, h1]
    exact ih h.2

theorem Labels.get_eq_of_same (a b : Labels) (h : Labels.same a b = true) (k : String) :
    Labels.get a k = Labels.get b k := by
  by_cases hk : k ∈ Labels.keys a ++ Labels.keys b
  · simp only [Labels.same, List.all_eq_true] at h
    simpa using h k hk
  · simp only [List.mem_append, not_or] at hk
    rw [Labels.get_eq_none_of_not_mem a k hk.1, Labels.get_eq_none_of_not_mem b k hk.2]

theorem Labels.same_refl (a : Labels) : Labels.same a a = true := by
  simp [Labels.same]

/-! ### Strings -/

theorem string_append_ne_of_data_ne (a b c : String) (h : b.data ≠ c.data) : a ++ b ≠ a ++ c := by
  intro e
  apply h
  have := congrArg String.data e
  simpa using this

theorem hasPrefix_append (p s : String) : HasPrefix (p ++ s) p = true := by
  simp [HasPrefix]

/-! ### The actions of a step -/

theorem entryActions_eq (sp : ShellyPlug) (r : Nat) (e : String × Json) (w : World)
    (hr : r < w.maps.length) : entryActions sp r e w = entryEvents sp (w.labelsAt r) e := by
  simp [entryActions, newEvents, (collectConfigEntry_spec sp r e w hr).1]

theorem passActions_ok (sp : ShellyPlug) (target : DiscoveryTarget) (il r : Nat) (w : World)
    (cfg : List (String × Json)) (hr : r < w.maps.length)
    (hc : sp.shellyProber.GetShellyConfig = Except.ok cfg) :
    passActions sp target il r w =
      Event.gauge Family.info (w.labelsAt il) 1 :: Event.call Call.GetShellyConfig ::
        (sysEvents sp (w.labelsAt r) ++ wifiEvents sp (w.labelsAt r) ++
          cfg.flatMap (entryEvents sp (w.labelsAt r))) := by
  simp [passActions, newEvents, (collectFromTargetGen2_ok sp target il r w cfg hr hc).1]

theorem get_id_componentLabels (tl : Labels) (id name : String) :
    Labels.get (componentLabels tl id name) "id" = some id := by
  unfold componentLabels
  rw [Labels.get_assign_ne _ _ _ _ (by decide), Labels.get_assign_same]

theorem get_id_componentLabels_source (tl : Labels) (id name source : String) :
    Labels.get (Labels.assign (componentLabels tl id name) "source" source) "id" = some id := by
  rw [Labels.get_assign_ne _ _ _ _ (by decide), get_id_componentLabels]

/-! ### Samples of a trace -/

theorem samples_append (a b : List Event) : samples (a ++ b) = samples a ++ samples b := by
  simp [samples]

theorem samples_flatMap {α : Type} (l : List α) (f : α → List Event) :
    samples (l.flatMap f) = l.flatMap (fun x => samples (f x)) := by
  induction l with
  | nil => rfl
  | cons x rest ih => simp [List.flatMap_cons, samples_append, ih]

theorem stepRun_sys (sp : ShellyPlug) (tl : Labels) :
    stepRun (collectSysStatus sp) tl = sysEvents sp tl := by
  simp [stepRun, (collectSysStatus_spec sp 0 _).1, World.labelsAt, heapRead]

theorem stepRun_wifi (sp : ShellyPlug) (tl : Labels) :
    stepRun (collectWifiStatus sp) tl = wifiEvents sp tl := by
  simp [stepRun, (collectWifiStatus_spec sp 0 _).1, World.labelsAt, heapRead]

theorem stepRun_entry (sp : ShellyPlug) (tl : Labels) (e : String × Json) :
    stepRun (fun r => collectConfigEntry sp r e) tl = entryEvents sp tl e := by
  have h := (collectConfigEntry_spec sp 0 e { maps := [tl], trace := [] } (by simp)).1
  simp [stepRun, h, World.labelsAt, heapRead]

/-! ### Keys and id labels -/

theorem hasPrefix_em_not_switch (key : String) (h : HasPrefix key "em:" = true) :
    HasPrefix key "switch:" = false := by
  have e1 : "em:".data = ['e', 'm', ':'] := rfl
  have e2 : "switch:".data = ['s', 'w', 'i', 't', 'c', 'h', ':'] := rfl
  unfold HasPrefix at *
  rw [e1] at h
  rw [e2]
  cases hd : key.data with
  | nil => simp [hd] at h
  | cons c cs =>
    rw [hd] at h
    simp only [List.isPrefixOf, Bool.and_eq_true, beq_iff_eq] at h
    have hc : c = 'e' := h.1.symm
    subst hc
    simp [List.isPrefixOf]

theorem last_char_append (p : String) (a b : Char) :
    (p ++ String.mk [a, b]).data.getLast? = some b := by
  simp [String.data_append]

theorem ne_of_last_char (x y : String) (h : x.data.getLast? ≠ y.data.getLast?) : x ≠ y := by
  intro e
  exact h (by rw [e])

theorem phase_id_ne_total (p : String) (c : Char) (hc : c ≠ 'l') :
    p ++ String.mk [':', c] ≠ "em:total" := by
  apply ne_of_last_char
  rw [last_char_append]
  intro e
  apply hc
  have h2 : "em:total".data.getLast? = some 'l' := by decide
  rw [h2] at e
  exact Option.some.inj e

theorem phase_id_ne_phase_id (p : String) (c d : Char) (h : c ≠ d) :
    p ++ String.mk [':', c] ≠ p ++ String.mk [':', d] := by
  apply string_append_ne_of_data_ne
  simpa using h

theorem same_eq_false_of_id_ne (tl : Labels) (i j name name2 : String) (h : i ≠ j) :
    Labels.same (componentLabels tl i name) (componentLabels tl j name2) = false := by
  cases hs : Labels.same (componentLabels tl i name) (componentLabels tl j name2) with
  | false => rfl
  | true =>
    exfalso
    have := Labels.get_eq_of_same _ _ hs "id"
    rw [get_id_componentLabels, get_id_componentLabels] at this
    exact h (Option.some.inj this)

/-! ## C1: the config fetch fails -/

/-- C1, as amended: when `GetShellyConfig` returns an error, the pass adds to the trace
exactly the info gauge write (value 1 under the info labels), the config call and one
log line, followed by one call `MarkTarget(target.Address, TargetUnhealthy)` when
`discovery.ServiceDiscovery` is non-nil and by nothing when it is nil.  So the info
sample is the only sample of the pass, no sys, wifi, switch, power or temperature
sample is written, no status call is made and no label map is changed. -/
theorem config_fetch_failure (sp : ShellyPlug) (target : DiscoveryTarget)
    (infoLabels targetLabels : Nat) (w : World) (err : String)
    (hc : sp.shellyProber.GetShellyConfig = Except.error err) :
    (collectFromTargetGen2 sp target infoLabels targetLabels w).trace =
        w.trace ++ newEvents w (collectFromTargetGen2 sp target infoLabels targetLabels w) ∧
      samples (newEvents w (collectFromTargetGen2 sp target infoLabels targetLabels w)) =
        [(Family.info, w.labelsAt infoLabels, 1)] ∧
      markCalls (newEvents w (collectFromTargetGen2 sp target infoLabels targetLabels w)) =
        (if sp.ServiceDiscovery = true then [(target.Address, TargetStatus.TargetUnhealthy)]
          else []) ∧
      calls (newEvents w (collectFromTargetGen2 sp target infoLabels targetLabels w)) =
        [Call.GetShellyConfig] ∧
      logLines (newEvents w (collectFromTargetGen2 sp target infoLabels targetLabels w)) =
        ["failed to fetch status: " ++ err] ∧
      (collectFromTargetGen2 sp target infoLabels targetLabels w).maps = w.maps := by
  obtain ⟨ht, hm⟩ := collectFromTargetGen2_error sp target infoLabels targetLabels w err hc
  have hn : newEvents w (collectFromTargetGen2 sp target infoLabels targetLabels w) =
      [Event.gauge Family.info (w.labelsAt infoLabels) 1, Event.call Call.GetShellyConfig,
        Event.errorf ("failed to fetch status: " ++ err)] ++
        (if sp.ServiceDiscovery = true then
          [Event.markTarget target.Address TargetStatus.TargetUnhealthy] else []) := by
    simp [newEvents, ht]
  rw [hn]
  refine ⟨ht, ?_, ?_, ?_, ?_, hm⟩ <;>
    by_cases hs : sp.ServiceDiscovery = true <;>
    simp [samples, markCalls, calls, logLines, hs]

/-- The amended C1 at an unreachable device with a discovery service: the pass marks the
target unhealthy once and writes the info sample only. -/
theorem config_fetch_failure_witness :
    markCalls (newEvents (startWorld [("target", "10.0.0.1")] [("target", "10.0.0.1")])
        (collectFromTargetGen2 { shellyProber := deadProber, ServiceDiscovery := true }
          { Address := "10.0.0.1" } 0 1
          (startWorld [("target", "10.0.0.1")] [("target", "10.0.0.1")]))) =
      [("10.0.0.1", TargetStatus.TargetUnhealthy)] :=
  (config_fetch_failure { shellyProber := deadProber, ServiceDiscovery := true }
    { Address := "10.0.0.1" } 0 1 (startWorld [("target", "10.0.0.1")] [("target", "10.0.0.1")])
    "timeout" rfl).2.2.1

/-- C1 as stated fails when `discovery.ServiceDiscovery` is nil: the config fetch fails
and the pass makes no `MarkTarget` call at all, where the claim asks for exactly one. -/
theorem config_fetch_failure_without_discovery :
    deadProber.GetShellyConfig = Except.error "timeout" ∧
      (collectFromTargetGen2 { shellyProber := deadProber, ServiceDiscovery := false }
          { Address := "10.0.0.1" } 0 1
          (startWorld [("target", "10.0.0.1")] [("target", "10.0.0.1")])).trace =
        [Event.gauge Family.info [("target", "10.0.0.1")] 1, Event.call Call.GetShellyConfig,
          Event.errorf "failed to fetch status: timeout"] ∧
      (markCalls (collectFromTargetGen2 { shellyProber := deadProber, ServiceDiscovery := false }
          { Address := "10.0.0.1" } 0 1
          (startWorld [("target", "10.0.0.1")] [("target", "10.0.0.1")])).trace).length ≠ 1 := by
  refine ⟨rfl, ?_, ?_⟩ <;> decide

/-! ## C2: the component a switch key yields -/

/-- C2, as amended: an entry with key `switch:<n>` whose value decodes to `configData`
makes exactly one status call, `GetSwitchStatus(configData.Id)`: the id is the `id`
member of the value, which is `n` only when the device lists it so.  When that call
succeeds the entry writes exactly three samples (switch.on, power.current, power.total),
when it fails none; every sample it writes carries the id label `switch:<configData.Id>`. -/
theorem switch_entry_component (sp : ShellyPlug) (targetLabels : Nat) (w : World) (n : Int)
    (configValue : Json) (configData : shellyGen2ConfigValue)
    (hr : targetLabels < w.maps.length)
    (hd : decodeShellyConfigValueToItem configValue = (configData, none)) :
    (collectConfigEntry sp targetLabels ("switch:" ++ toString n, configValue) w).trace =
        w.trace ++ entryActions sp targetLabels ("switch:" ++ toString n, configValue) w ∧
      calls (entryActions sp targetLabels ("switch:" ++ toString n, configValue) w) =
        [Call.GetSwitchStatus configData.Id] ∧
      (∀ s ∈ samples (entryActions sp targetLabels ("switch:" ++ toString n, configValue) w),
        Labels.get s.2.1 "id" = some ("switch:" ++ toString configData.Id)) ∧
      (∀ result, sp.shellyProber.GetSwitchStatus configData.Id = Except.ok result →
        samples (entryActions sp targetLabels ("switch:" ++ toString n, configValue) w) =
          [(Family.switchOn,
              Labels.assign
                (componentLabels (w.labelsAt targetLabels)
                  ("switch:" ++ toString configData.Id) configData.Name)
                "source" result.Source,
              boolToFloat64 result.Output),
            (Family.powerCurrent,
              componentLabels (w.labelsAt targetLabels)
                ("switch:" ++ toString configData.Id) configData.Name,
              result.Current),
            (Family.powerTotal,
              componentLabels (w.labelsAt targetLabels)
                ("switch:" ++ toString configData.Id) configData.Name,
              result.Apower)]) ∧
      (∀ err, sp.shellyProber.GetSwitchStatus configData.Id = Except.error err →
        samples (entryActions sp targetLabels ("switch:" ++ toString n, configValue) w) = []) := by
  have ht := (collectConfigEntry_spec sp targetLabels ("switch:" ++ toString n, configValue) w hr).1
  have ha := entryActions_eq sp targetLabels ("switch:" ++ toString n, configValue) w hr
  have hp : HasPrefix ("switch:" ++ toString n) "switch:" = true := hasPrefix_append _ _
  have he : entryEvents sp (w.labelsAt targetLabels) ("switch:" ++ toString n, configValue) =
      switchEvents sp (w.labelsAt targetLabels) configValue := by
    simp [entryEvents, hp]
  rw [ha, he]
  refine ⟨by rw [ht, he], ?_, ?_, ?_, ?_⟩
  · unfold switchEvents
    rw [hd]
    rcases hf : sp.shellyProber.GetSwitchStatus configData.Id with e | res <;>
      simp [calls, hf]
  · unfold switchEvents
    rw [hd]
    rcases hf : sp.shellyProber.GetSwitchStatus configData.Id with e | res
    · simp [samples, hf]
    · intro s hs
      simp only [hf, samples, List.filterMap_cons, List.filterMap_nil, List.mem_cons,
        List.mem_singleton, List.not_mem_nil, or_false] at hs
      rcases hs with rfl | rfl | rfl
      · exact get_id_componentLabels_source _ _ _ _
      · exact get_id_componentLabels _ _ _
      · exact get_id_componentLabels _ _ _
  · intro result hf
    unfold switchEvents
    rw [hd]
    simp [hf, samples]
  · intro err hf
    unfold switchEvents
    rw [hd]
    simp [hf, samples]

/-- The amended C2 at the key `switch:0` with the value of id 0 and name kettle: one
call, `GetSwitchStatus(0)`. -/
theorem switch_entry_component_witness :
    calls (entryActions { shellyProber := liveProber [], ServiceDiscovery := true } 1
        ("switch:" ++ toString (0 : Int), configItem 0 "kettle") (startWorld [] [])) =
      [Call.GetSwitchStatus 0] :=
  (switch_entry_component { shellyProber := liveProber [], ServiceDiscovery := true } 1
    (startWorld [] []) 0 (configItem 0 "kettle") { Id := 0, Name := "kettle" }
    (by decide) (by decide)).2.1

/-- C2 as stated fails where the key and the value disagree: under the key `switch:3`
the value of id 5 decodes successfully, and the pass fetches the switch status once with
id 5 (never with id 3) and labels the samples `switch:5`. -/
theorem switch_key_index_is_not_the_id :
    decodeShellyConfigValueToItem (configItem 5 "boiler") = ({ Id := 5, Name := "boiler" }, none) ∧
      calls (passActions
          { shellyProber := liveProber [("switch:3", configItem 5 "boiler")],
            ServiceDiscovery := true }
          { Address := "10.0.0.1" } 0 1 (startWorld [] [])) =
        [Call.GetShellyConfig, Call.GetSysStatus, Call.GetWifiStatus, Call.GetSwitchStatus 5] ∧
      ((samples (passActions
          { shellyProber := liveProber [("switch:3", configItem 5 "boiler")],
            ServiceDiscovery := true }
          { Address := "10.0.0.1" } 0 1 (startWorld [] []))).filter
            (fun s => s.1 = Family.switchOn)).map (fun s => s.2.1) =
        [[("id", "switch:5"), ("name", "boiler"), ("source", "schedule")]] := by
  refine ⟨?_, ?_, ?_⟩ <;> decide

/-! ## C3: a failing status call is local to its unit -/

theorem samples_sysEvents_failUnit (sp : ShellyPlug) (u : StatusUnit) (err : String)
    (tl : Labels) :
    samples (sysEvents (failUnit sp u err) tl) =
      if u = StatusUnit.sys then [] else samples (sysEvents sp tl) := by
  cases u <;> simp [failUnit, sysEvents, samples]

theorem samples_wifiEvents_failUnit (sp : ShellyPlug) (u : StatusUnit) (err : String)
    (tl : Labels) :
    samples (wifiEvents (failUnit sp u err) tl) =
      if u = StatusUnit.wifi then [] else samples (wifiEvents sp tl) := by
  cases u <;> simp [failUnit, wifiEvents, samples]

theorem samples_switchEvents_failUnit (sp : ShellyPlug) (u : StatusUnit) (err : String)
    (tl : Labels) (v : Json) (cd : shellyGen2ConfigValue)
    (hd : decodeShellyConfigValueToItem v = (cd, none)) :
    samples (switchEvents (failUnit sp u err) tl v) =
      if StatusUnit.switch cd.Id = u then [] else samples (switchEvents sp tl v) := by
  unfold switchEvents
  rw [hd]
  cases u with
  | switch id =>
    by_cases h : cd.Id = id
    · simp [failUnit, samples, h]
    · simp [failUnit, samples, h]
  | _ => simp [failUnit, samples]

theorem samples_emEvents_failUnit (sp : ShellyPlug) (u : StatusUnit) (err : String)
    (tl : Labels) (v : Json) (cd : shellyGen2ConfigValue)
    (hd : decodeShellyConfigValueToItem v = (cd, none)) :
    samples (emEvents (failUnit sp u err) tl v) =
      if StatusUnit.em cd.Id = u then [] else samples (emEvents sp tl v) := by
  unfold emEvents
  rw [hd]
  cases u with
  | em id =>
    by_cases h : cd.Id = id
    · simp [failUnit, samples, h]
    · simp [failUnit, samples, h]
  | _ => simp [failUnit, samples]

theorem samples_temperatureEvents_failUnit (sp : ShellyPlug) (u : StatusUnit) (err : String)
    (tl : Labels) (v : Json) (cd : shellyGen2ConfigValue)
    (hd : decodeShellyConfigValueToItem v = (cd, none)) :
    samples (temperatureEvents (failUnit sp u err) tl v) =
      if StatusUnit.temperature cd.Id = u then [] else samples (temperatureEvents sp tl v) := by
  unfold temperatureEvents
  rw [hd]
  cases u with
  | temperature id =>
    by_cases h : cd.Id = id
    · simp [failUnit, samples, h]
    · simp [failUnit, samples, h]
  | _ => simp [failUnit, samples]

theorem samples_entryEvents_of_decode_error (sp : ShellyPlug) (tl : Labels) (e : String × Json)
    (cd : shellyGen2ConfigValue) (msg : String)
    (hd : decodeShellyConfigValueToItem e.2 = (cd, some msg)) : entryEvents sp tl e = [] := by
  simp [entryEvents, switchEvents, emEvents, temperatureEvents, hd]

theorem samples_entryEvents_failUnit (sp : ShellyPlug) (u : StatusUnit) (err : String)
    (tl : Labels) (e : String × Json) :
    samples (entryEvents (failUnit sp u err) tl e) =
      if entryUnit e = some u then [] else samples (entryEvents sp tl e) := by
  rcases hd : decodeShellyConfigValueToItem e.2 with ⟨cd, _ | msg⟩
  · unfold entryEvents entryUnit
    rw [hd]
    by_cases h1 : HasPrefix e.1 "switch:" = true
    · simp [h1, samples_switchEvents_failUnit sp u err tl e.2 cd hd]
    · by_cases h2 : HasPrefix e.1 "em:" = true
      · simp [h1, h2, samples_emEvents_failUnit sp u err tl e.2 cd hd]
      · by_cases h3 : HasPrefix e.1 "temperature:" = true
        · simp [h1, h2, h3, samples_temperatureEvents_failUnit sp u err tl e.2 cd hd]
        · simp [h1, h2, h3, samples]
  · rw [samples_entryEvents_of_decode_error _ _ _ cd msg hd,
      samples_entryEvents_of_decode_error _ _ _ cd msg hd]
    simp [samples]

theorem failUnit_config (sp : ShellyPlug) (u : StatusUnit) (err : String) :
    (failUnit sp u err).shellyProber.GetShellyConfig = sp.shellyProber.GetShellyConfig := by
  cases u <;> rfl

/-- C3: after a successful config fetch the samples of a pass are the info sample
followed by the samples of the units in turn (system status, wifi status, then one unit
per config entry), each unit contributing what it writes when run on its own.  When the
status call of one unit `u` fails instead, the samples of the pass are the same list
with the contribution of `u` removed and every other contribution as it was. -/
theorem status_failure_is_local (sp : ShellyPlug) (target : DiscoveryTarget)
    (infoLabels targetLabels : Nat) (w : World) (cfg : List (String × Json)) (u : StatusUnit)
    (err : String) (hr : targetLabels < w.maps.length)
    (hc : sp.shellyProber.GetShellyConfig = Except.ok cfg) :
    samples (passActions sp target infoLabels targetLabels w) =
        (Family.info, w.labelsAt infoLabels, 1) ::
          (samples (stepRun (collectSysStatus sp) (w.labelsAt targetLabels)) ++
            samples (stepRun (collectWifiStatus sp) (w.labelsAt targetLabels)) ++
            cfg.flatMap (fun e =>
              samples (stepRun (fun r => collectConfigEntry sp r e) (w.labelsAt targetLabels)))) ∧
      samples (passActions (failUnit sp u err) target infoLabels targetLabels w) =
        (Family.info, w.labelsAt infoLabels, 1) ::
          ((if u = StatusUnit.sys then []
              else samples (stepRun (collectSysStatus sp) (w.labelsAt targetLabels))) ++
            (if u = StatusUnit.wifi then []
              else samples (stepRun (collectWifiStatus sp) (w.labelsAt targetLabels))) ++
            cfg.flatMap (fun e =>
              if entryUnit e = some u then []
              else samples
                (stepRun (fun r => collectConfigEntry sp r e) (w.labelsAt targetLabels)))) := by
  have hc2 : (failUnit sp u err).shellyProber.GetShellyConfig = Except.ok cfg := by
    rw [failUnit_config, hc]
  rw [passActions_ok sp target infoLabels targetLabels w cfg hr hc,
    passActions_ok (failUnit sp u err) target infoLabels targetLabels w cfg hr hc2]
  simp only [stepRun_sys, stepRun_wifi, stepRun_entry]
  have h1 : ∀ l : List Event,
      samples (Event.gauge Family.info (w.labelsAt infoLabels) 1 ::
        Event.call Call.GetShellyConfig :: l) =
      (Family.info, w.labelsAt infoLabels, 1) :: samples l := by
    intro l; simp [samples]
  constructor
  · rw [h1, samples_append, samples_append, samples_flatMap]
  · rw [h1, samples_append, samples_append, samples_flatMap, samples_sysEvents_failUnit,
      samples_wifiEvents_failUnit]
    congr 3
    funext e
    exact samples_entryEvents_failUnit sp u err (w.labelsAt targetLabels) e

/-- C3 at the example of the claim: the config holds `switch:0` and `temperature:1`, the
switch status call fails, and the pass writes no switch sample but still writes the
temperature sample of sensor 1. -/
theorem status_failure_is_local_witness :
    samples (passActions
        (failUnit
          { shellyProber :=
              liveProber [("switch:0", configItem 0 "kettle"), ("temperature:1", configItem 1 "probe")],
            ServiceDiscovery := true }
          (StatusUnit.switch 0) "timeout")
        { Address := "10.0.0.1" } 0 1 (startWorld [] [])) =
      [(Family.info, [], 1),
        (Family.sysUnixtime, [], 1700000000),
        (Family.sysUptime, [], 3600),
        (Family.sysMemTotal, [], 262144),
        (Family.sysMemFree, [], 131072),
        (Family.sysFsSize, [], 524288),
        (Family.sysFsFree, [], 262144),
        (Family.restartRequired, [], 0),
        (Family.wifiRssi, [("ssid", "home")], -60),
        (Family.temp, [("id", "sensor:1"), ("name", "probe")], 21)] := by
  rw [(status_failure_is_local
    { shellyProber :=
        liveProber [("switch:0", configItem 0 "kettle"), ("temperature:1", configItem 1 "probe")],
      ServiceDiscovery := true }
    { Address := "10.0.0.1" } 0 1 (startWorld [] [])
    [("switch:0", configItem 0 "kettle"), ("temperature:1", configItem 1 "probe")]
    (StatusUnit.switch 0) "timeout" (by decide) rfl).2]
  decide

/-! ## C4: the sample groups of an energy meter -/

/-- C4: an em entry whose value decodes and whose status call succeeds writes exactly
twenty samples in four label groups.  The groups of the phases A, B and C (id labels
`em:<id>:A`, `em:<id>:B`, `em:<id>:C`) each hold the six samples current, apparent
power, active power, power factor, frequency and voltage; the aggregate group (id label
`em:total`) holds current and active power only.  The four label maps differ from one
another. -/
theorem em_entry_groups (sp : ShellyPlug) (targetLabels : Nat) (w : World) (key : String)
    (configValue : Json) (configData : shellyGen2ConfigValue) (result : EmStatus)
    (hr : targetLabels < w.maps.length) (hk : HasPrefix key "em:" = true)
    (hd : decodeShellyConfigValueToItem configValue = (configData, none))
    (hf : sp.shellyProber.GetEmStatus configData.Id = Except.ok result) :
    samples (entryActions sp targetLabels (key, configValue) w) =
        [(Family.powerCurrent, componentLabels (w.labelsAt targetLabels)
            ("em:" ++ toString configData.Id ++ ":A") configData.Name, result.ACurrent),
          (Family.powerApparentCurrent, componentLabels (w.labelsAt targetLabels)
            ("em:" ++ toString configData.Id ++ ":A") configData.Name, result.AAprtPower),
          (Family.powerTotal, componentLabels (w.labelsAt targetLabels)
            ("em:" ++ toString configData.Id ++ ":A") configData.Name, result.AActPower),
          (Family.powerFactor, componentLabels (w.labelsAt targetLabels)
            ("em:" ++ toString configData.Id ++ ":A") configData.Name, result.APf),
          (Family.powerFrequency, componentLabels (w.labelsAt targetLabels)
            ("em:" ++ toString configData.Id ++ ":A") configData.Name, result.AFreq),
          (Family.powerVoltage, componentLabels (w.labelsAt targetLabels)
            ("em:" ++ toString configData.Id ++ ":A") configData.Name, result.AVoltage),
          (Family.powerCurrent, componentLabels (w.labelsAt targetLabels)
            ("em:" ++ toString configData.Id ++ ":B") configData.Name, result.BCurrent),
          (Family.powerApparentCurrent, componentLabels (w.labelsAt targetLabels)
            ("em:" ++ toString configData.Id ++ ":B") configData.Name, result.BAprtPower),
          (Family.powerTotal, componentLabels (w.labelsAt targetLabels)
            ("em:" ++ toString configData.Id ++ ":B") configData.Name, result.BActPower),
          (Family.powerFactor, componentLabels (w.labelsAt targetLabels)
            ("em:" ++ toString configData.Id ++ ":B") configData.Name, result.BPf),
          (Family.powerFrequency, componentLabels (w.labelsAt targetLabels)
            ("em:" ++ toString configData.Id ++ ":B") configData.Name, result.BFreq),
          (Family.powerVoltage, componentLabels (w.labelsAt targetLabels)
            ("em:" ++ toString configData.Id ++ ":B") configData.Name, result.BVoltage),
          (Family.powerCurrent, componentLabels (w.labelsAt targetLabels)
            ("em:" ++ toString configData.Id ++ ":C") configData.Name, result.CCurrent),
          (Family.powerApparentCurrent, componentLabels (w.labelsAt targetLabels)
            ("em:" ++ toString configData.Id ++ ":C") configData.Name, result.CAprtPower),
          (Family.powerTotal, componentLabels (w.labelsAt targetLabels)
            ("em:" ++ toString configData.Id ++ ":C") configData.Name, result.CActPower),
          (Family.powerFactor, componentLabels (w.labelsAt targetLabels)
            ("em:" ++ toString configData.Id ++ ":C") configData.Name, result.CPf),
          (Family.powerFrequency, componentLabels (w.labelsAt targetLabels)
            ("em:" ++ toString configData.Id ++ ":C") configData.Name, result.CFreq),
          (Family.powerVoltage, componentLabels (w.labelsAt targetLabels)
            ("em:" ++ toString configData.Id ++ ":C") configData.Name, result.CVoltage),
          (Family.powerCurrent, componentLabels (w.labelsAt targetLabels)
            "em:total" configData.Name, result.TotalCurrent),
          (Family.powerTotal, componentLabels (w.labelsAt targetLabels)
            "em:total" configData.Name, result.TotalActPower)] ∧
      List.Pairwise (fun a b => Labels.same a b = false)
        [componentLabels (w.labelsAt targetLabels)
            ("em:" ++ toString configData.Id ++ ":A") configData.Name,
          componentLabels (w.labelsAt targetLabels)
            ("em:" ++ toString configData.Id ++ ":B") configData.Name,
          componentLabels (w.labelsAt targetLabels)
            ("em:" ++ toString configData.Id ++ ":C") configData.Name,
          componentLabels (w.labelsAt targetLabels) "em:total" configData.Name] ∧
      (∀ phase ∈ ["A", "B", "C"],
        ((samples (entryActions sp targetLabels (key, configValue) w)).filter
          (fun s => Labels.same s.2.1 (componentLabels (w.labelsAt targetLabels)
            ("em:" ++ toString configData.Id ++ ":" ++ phase) configData.Name))).map
          (fun s => s.1) =
        [Family.powerCurrent, Family.powerApparentCurrent, Family.powerTotal,
          Family.powerFactor, Family.powerFrequency, Family.powerVoltage]) ∧
      ((samples (entryActions sp targetLabels (key, configValue) w)).filter
          (fun s => Labels.same s.2.1
            (componentLabels (w.labelsAt targetLabels) "em:total" configData.Name))).map
          (fun s => s.1) =
        [Family.powerCurrent, Family.powerTotal] := by
  have hAB : "em:" ++ toString configData.Id ++ ":A" ≠ "em:" ++ toString configData.Id ++ ":B" :=
    phase_id_ne_phase_id _ 'A' 'B' (by decide)
  have hAC : "em:" ++ toString configData.Id ++ ":A" ≠ "em:" ++ toString configData.Id ++ ":C" :=
    phase_id_ne_phase_id _ 'A' 'C' (by decide)
  have hBC : "em:" ++ toString configData.Id ++ ":B" ≠ "em:" ++ toString configData.Id ++ ":C" :=
    phase_id_ne_phase_id _ 'B' 'C' (by decide)
  have hAT : "em:" ++ toString configData.Id ++ ":A" ≠ "em:total" :=
    phase_id_ne_total _ 'A' (by decide)
  have hBT : "em:" ++ toString configData.Id ++ ":B" ≠ "em:total" :=
    phase_id_ne_total _ 'B' (by decide)
  have hCT : "em:" ++ toString configData.Id ++ ":C" ≠ "em:total" :=
    phase_id_ne_total _ 'C' (by decide)
  have both : ∀ {A B : Prop}, A → (A → B) → A ∧ B := fun a f => ⟨a, f a⟩
  refine both ?_ (fun hs => ⟨?_, ?_, ?_⟩)
  · rw [entryActions_eq sp targetLabels (key, configValue) w hr]
    simp only [entryEvents, hasPrefix_em_not_switch key hk, hk, emEvents, hd, hf]
    simp only [samples, phaseEvents, List.filterMap_cons, List.filterMap_append,
      List.filterMap_nil, Bool.false_eq_true, if_false, if_true, List.cons_append,
      List.nil_append]
  · simp [same_eq_false_of_id_ne, hAB, hAC, hBC, hAT, hBT, hCT]
  · intro phase hp
    rw [hs]
    have e : ∀ x : String, "em:" ++ toString configData.Id ++ ":" ++ x =
        "em:" ++ toString configData.Id ++ (":" ++ x) := by
      intro x; rw [String.append_assoc]
    simp only [List.mem_cons, List.mem_singleton, List.not_mem_nil, or_false] at hp
    rcases hp with rfl | rfl | rfl
    · rw [e]
      have e2 : (":" ++ "A" : String) = ":A" := by decide
      rw [e2]
      simp [List.filter, Labels.same_refl, same_eq_false_of_id_ne, hAB.symm, hAC.symm,
        hAT.symm]
    · rw [e]
      have e2 : (":" ++ "B" : String) = ":B" := by decide
      rw [e2]
      simp [List.filter, Labels.same_refl, same_eq_false_of_id_ne, hAB, hBC.symm, hBT.symm]
    · rw [e]
      have e2 : (":" ++ "C" : String) = ":C" := by decide
      rw [e2]
      simp [List.filter, Labels.same_refl, same_eq_false_of_id_ne, hAC, hBC, hCT.symm]
  · rw [hs]
    simp [List.filter, Labels.same_refl, same_eq_false_of_id_ne, hAT, hBT, hCT]

/-- C4 at the entry `em:1` of name meter on a device that answers: the samples of the
aggregate group are those of the families power.current and power.total. -/
theorem em_entry_groups_witness :
    ((samples (entryActions { shellyProber := liveProber [], ServiceDiscovery := true } 1
        ("em:1", configItem 1 "meter") (startWorld [] []))).filter
          (fun s => Labels.same s.2.1 (componentLabels [] "em:total" "meter"))).map
          (fun s => s.1) =
      [Family.powerCurrent, Family.powerTotal] :=
  (em_entry_groups { shellyProber := liveProber [], ServiceDiscovery := true } 1
    (startWorld [] []) "em:1" (configItem 1 "meter") { Id := 1, Name := "meter" }
    { ACurrent := 1, AAprtPower := 2, AActPower := 3, APf := 4, AFreq := 50, AVoltage := 230
      BCurrent := 5, BAprtPower := 6, BActPower := 7, BPf := 8, BFreq := 50, BVoltage := 231
      CCurrent := 9, CAprtPower := 10, CActPower := 11, CPf := 12, CFreq := 50
      CVoltage := 232
      TotalCurrent := 16, TotalActPower := 22 }
    (by decide) (by decide) (by decide) rfl).2.2.2

/-! ## C5: the end-to-end example -/

theorem componentSamples_append (a b : List Event) :
    componentSamples (a ++ b) = componentSamples a ++ componentSamples b := by
  simp [componentSamples, samples_append]

theorem componentSamples_sysEvents (sp : ShellyPlug) (tl : Labels) :
    componentSamples (sysEvents sp tl) = [] := by
  unfold sysEvents
  rcases hf : sp.shellyProber.GetSysStatus with e | res <;>
    simp [componentSamples, samples, componentFamilies]

theorem componentSamples_wifiEvents (sp : ShellyPlug) (tl : Labels) :
    componentSamples (wifiEvents sp tl) = [] := by
  unfold wifiEvents
  rcases hf : sp.shellyProber.GetWifiStatus with e | res <;>
    simp [componentSamples, samples, componentFamilies]

theorem componentSamples_pass (sp : ShellyPlug) (target : DiscoveryTarget) (il r : Nat)
    (w : World) (cfg : List (String × Json)) (hr : r < w.maps.length)
    (hc : sp.shellyProber.GetShellyConfig = Except.ok cfg) :
    componentSamples (passActions sp target il r w) =
      componentSamples (cfg.flatMap (entryEvents sp (w.labelsAt r))) := by
  rw [passActions_ok sp target il r w cfg hr hc]
  have h : ∀ l : List Event,
      componentSamples (Event.gauge Family.info (w.labelsAt il) 1 ::
        Event.call Call.GetShellyConfig :: l) = componentSamples l := by
    intro l
    simp [componentSamples, samples, componentFamilies]
  rw [h, componentSamples_append, componentSamples_append, componentSamples_sysEvents,
    componentSamples_wifiEvents]
  simp

/-- C5, as amended: for the config of `switch:0` (id 0, name kettle) and `em:1` (id 1,
name meter), in either order of iteration, with the switch status of output true, source
schedule, current 0.5 and apower 110 and any em status, the component samples of the
pass are, up to order: switch.on = 1 under id `switch:0`, name kettle and source
schedule; power.current = 0.5 and power.total = 110 under id `switch:0` and name kettle;
eighteen phase samples, six under each of the ids `em:1:A`, `em:1:B` and `em:1:C`; and
two aggregate samples under the id `em:total`.  All labels are added to the target
labels. -/
theorem example_pass_samples (sp : ShellyPlug) (target : DiscoveryTarget)
    (infoLabels targetLabels : Nat) (w : World) (cfg : List (String × Json)) (em : EmStatus)
    (hr : targetLabels < w.maps.length)
    (hc : sp.shellyProber.GetShellyConfig = Except.ok cfg)
    (ho : cfg = [("switch:0", configItem 0 "kettle"), ("em:1", configItem 1 "meter")] ∨
      cfg = [("em:1", configItem 1 "meter"), ("switch:0", configItem 0 "kettle")])
    (hs : sp.shellyProber.GetSwitchStatus 0 =
      Except.ok { Output := true, Source := "schedule", Current := 1 / 2, Apower := 110 })
    (he : sp.shellyProber.GetEmStatus 1 = Except.ok em) :
    (componentSamples (passActions sp target infoLabels targetLabels w)).Perm
        ([(Family.switchOn,
              Labels.assign (componentLabels (w.labelsAt targetLabels) "switch:0" "kettle")
                "source" "schedule", 1),
            (Family.powerCurrent,
              componentLabels (w.labelsAt targetLabels) "switch:0" "kettle", 1 / 2),
            (Family.powerTotal,
              componentLabels (w.labelsAt targetLabels) "switch:0" "kettle", 110)] ++
          (samples (phaseEvents (componentLabels (w.labelsAt targetLabels) "em:1:A" "meter")
              em.ACurrent em.AAprtPower em.AActPower em.APf em.AFreq em.AVoltage) ++
            samples (phaseEvents (componentLabels (w.labelsAt targetLabels) "em:1:B" "meter")
              em.BCurrent em.BAprtPower em.BActPower em.BPf em.BFreq em.BVoltage) ++
            samples (phaseEvents (componentLabels (w.labelsAt targetLabels) "em:1:C" "meter")
              em.CCurrent em.CAprtPower em.CActPower em.CPf em.CFreq em.CVoltage) ++
            [(Family.powerCurrent,
                componentLabels (w.labelsAt targetLabels) "em:total" "meter", em.TotalCurrent),
              (Family.powerTotal,
                componentLabels (w.labelsAt targetLabels) "em:total" "meter",
                em.TotalActPower)])) ∧
      (samples (phaseEvents (componentLabels (w.labelsAt targetLabels) "em:1:A" "meter")
            em.ACurrent em.AAprtPower em.AActPower em.APf em.AFreq em.AVoltage) ++
          samples (phaseEvents (componentLabels (w.labelsAt targetLabels) "em:1:B" "meter")
            em.BCurrent em.BAprtPower em.BActPower em.BPf em.BFreq em.BVoltage) ++
          samples (phaseEvents (componentLabels (w.labelsAt targetLabels) "em:1:C" "meter")
            em.CCurrent em.CAprtPower em.CActPower em.CPf em.CFreq em.CVoltage)).length =
        18 := by
  have d0 : decodeShellyConfigValueToItem (configItem 0 "kettle") =
      ({ Id := 0, Name := "kettle" }, none) := by decide
  have d1 : decodeShellyConfigValueToItem (configItem 1 "meter") =
      ({ Id := 1, Name := "meter" }, none) := by decide
  have p0 : HasPrefix "switch:0" "switch:" = true := by decide
  have p1 : HasPrefix "em:1" "switch:" = false := by decide
  have p2 : HasPrefix "em:1" "em:" = true := by decide
  have s0 : "switch:" ++ toString (0 : Int) = "switch:0" := by decide
  have sA : "em:" ++ toString (1 : Int) ++ ":A" = "em:1:A" := by decide
  have sB : "em:" ++ toString (1 : Int) ++ ":B" = "em:1:B" := by decide
  have sC : "em:" ++ toString (1 : Int) ++ ":C" = "em:1:C" := by decide
  have esw : componentSamples (entryEvents sp (w.labelsAt targetLabels)
      ("switch:0", configItem 0 "kettle")) =
      [(Family.switchOn,
          Labels.assign (componentLabels (w.labelsAt targetLabels) "switch:0" "kettle")
            "source" "schedule", 1),
        (Family.powerCurrent,
          componentLabels (w.labelsAt targetLabels) "switch:0" "kettle", 1 / 2),
        (Family.powerTotal,
          componentLabels (w.labelsAt targetLabels) "switch:0" "kettle", 110)] := by
    simp [entryEvents, p0, switchEvents, d0, hs, s0, componentSamples, samples,
      componentFamilies, boolToFloat64]
  have eem : componentSamples (entryEvents sp (w.labelsAt targetLabels)
      ("em:1", configItem 1 "meter")) =
      samples (phaseEvents (componentLabels (w.labelsAt targetLabels) "em:1:A" "meter")
          em.ACurrent em.AAprtPower em.AActPower em.APf em.AFreq em.AVoltage) ++
        samples (phaseEvents (componentLabels (w.labelsAt targetLabels) "em:1:B" "meter")
          em.BCurrent em.BAprtPower em.BActPower em.BPf em.BFreq em.BVoltage) ++
        samples (phaseEvents (componentLabels (w.labelsAt targetLabels) "em:1:C" "meter")
          em.CCurrent em.CAprtPower em.CActPower em.CPf em.CFreq em.CVoltage) ++
        [(Family.powerCurrent,
            componentLabels (w.labelsAt targetLabels) "em:total" "meter", em.TotalCurrent),
          (Family.powerTotal,
            componentLabels (w.labelsAt targetLabels) "em:total" "meter",
            em.TotalActPower)] := by
    simp [entryEvents, p1, p2, emEvents, d1, he, sA, sB, sC, componentSamples, samples,
      componentFamilies, phaseEvents]
  constructor
  · rw [componentSamples_pass sp target infoLabels targetLabels w cfg hr hc]
    rcases ho with rfl | rfl
    · simp only [List.flatMap_cons, List.flatMap_nil, List.append_nil,
        componentSamples_append, esw, eem]
      exact List.Perm.refl _
    · simp only [List.flatMap_cons, List.flatMap_nil, List.append_nil,
        componentSamples_append, esw, eem]
      exact List.perm_append_comm
  · simp [samples, phaseEvents]

/-- The amended C5 on a device without target labels: the three switch samples and the
twenty em samples, with the label maps written out. -/
theorem example_pass_samples_witness :
    (componentSamples (passActions examplePlug { Address := "10.0.0.1" } 0 1
        (startWorld [] []))).Perm
      ([(Family.switchOn, [("id", "switch:0"), ("name", "kettle"), ("source", "schedule")], 1),
          (Family.powerCurrent, [("id", "switch:0"), ("name", "kettle")], 1 / 2),
          (Family.powerTotal, [("id", "switch:0"), ("name", "kettle")], 110)] ++
        ([(Family.powerCurrent, [("id", "em:1:A"), ("name", "meter")], 1),
            (Family.powerApparentCurrent, [("id", "em:1:A"), ("name", "meter")], 2),
            (Family.powerTotal, [("id", "em:1:A"), ("name", "meter")], 3),
            (Family.powerFactor, [("id", "em:1:A"), ("name", "meter")], 4),
            (Family.powerFrequency, [("id", "em:1:A"), ("name", "meter")], 50),
            (Family.powerVoltage, [("id", "em:1:A"), ("name", "meter")], 230)] ++
          [(Family.powerCurrent, [("id", "em:1:B"), ("name", "meter")], 5),
            (Family.powerApparentCurrent, [("id", "em:1:B"), ("name", "meter")], 6),
            (Family.powerTotal, [("id", "em:1:B"), ("name", "meter")], 7),
            (Family.powerFactor, [("id", "em:1:B"), ("name", "meter")], 8),
            (Family.powerFrequency, [("id", "em:1:B"), ("name", "meter")], 50),
            (Family.powerVoltage, [("id", "em:1:B"), ("name", "meter")], 231)] ++
          [(Family.powerCurrent, [("id", "em:1:C"), ("name", "meter")], 9),
            (Family.powerApparentCurrent, [("id", "em:1:C"), ("name", "meter")], 10),
            (Family.powerTotal, [("id", "em:1:C"), ("name", "meter")], 11),
            (Family.powerFactor, [("id", "em:1:C"), ("name", "meter")], 12),
            (Family.powerFrequency, [("id", "em:1:C"), ("name", "meter")], 50),
            (Family.powerVoltage, [("id", "em:1:C"), ("name", "meter")], 232)] ++
          [(Family.powerCurrent, [("id", "em:total"), ("name", "meter")], 16),
            (Family.powerTotal, [("id", "em:total"), ("name", "meter")], 22)])) :=
  (example_pass_samples examplePlug { Address := "10.0.0.1" } 0 1 (startWorld [] [])
    [("switch:0", configItem 0 "kettle"), ("em:1", configItem 1 "meter")]
    { ACurrent := 1, AAprtPower := 2, AActPower := 3, APf := 4, AFreq := 50, AVoltage := 230
      BCurrent := 5, BAprtPower := 6, BActPower := 7, BPf := 8, BFreq := 50, BVoltage := 231
      CCurrent := 9, CAprtPower := 10, CActPower := 11, CPf := 12, CFreq := 50
      CVoltage := 232
      TotalCurrent := 16, TotalActPower := 22 }
    (by decide) rfl (Or.inl rfl) rfl rfl).1

/-- C5 as stated fails in its count: in the example pass the phase samples, those under
the ids `em:1:A`, `em:1:B` and `em:1:C`, are eighteen, not twelve. -/
theorem example_pass_has_eighteen_phase_samples :
    ((samples (passActions examplePlug { Address := "10.0.0.1" } 0 1
        (startWorld [] []))).filter
          (fun s => decide (Labels.get s.2.1 "id" ∈
            [some "em:1:A", some "em:1:B", some "em:1:C"]))).length = 18 ∧
      ((samples (passActions examplePlug { Address := "10.0.0.1" } 0 1
        (startWorld [] []))).filter
          (fun s => decide (Labels.get s.2.1 "id" ∈
            [some "em:1:A", some "em:1:B", some "em:1:C"]))).length ≠ 12 := by
  constructor <;> decide

/-! ## C6: the order of the config entries -/

/-- C6 fails on the code: with two energy meters of the same name, `em:0` and `em:1`,
both iterations write power.current under the one label map of id `em:total`, so the
value the gauge holds after the pass is that of the meter visited last: 16 (meter 1)
when `em:0` is visited first, 15 (meter 0) when `em:1` is visited first. -/
theorem em_total_depends_on_iteration_order :
    List.Perm [("em:0", configItem 0 "meter"), ("em:1", configItem 1 "meter")]
        [("em:1", configItem 1 "meter"), ("em:0", configItem 0 "meter")] ∧
      gaugeValue
          (collectFromTargetGen2
            { shellyProber :=
                liveProber [("em:0", configItem 0 "meter"), ("em:1", configItem 1 "meter")],
              ServiceDiscovery := true }
            { Address := "10.0.0.1" } 0 1 (startWorld [] [])).trace
          Family.powerCurrent [("id", "em:total"), ("name", "meter")] = some 16 ∧
      gaugeValue
          (collectFromTargetGen2
            { shellyProber :=
                liveProber [("em:1", configItem 1 "meter"), ("em:0", configItem 0 "meter")],
              ServiceDiscovery := true }
            { Address := "10.0.0.1" } 0 1 (startWorld [] [])).trace
          Family.powerCurrent [("id", "em:total"), ("name", "meter")] = some 15 := by
  refine ⟨List.Perm.swap _ _ _, ?_, ?_⟩ <;> decide

/-! ## C7 and C8: entries the loop passes over -/

theorem collectConfigEntry_withConfig (sp : ShellyPlug) (cfg : List (String × Json)) (r : Nat)
    (e : String × Json) (w : World) :
    collectConfigEntry (withConfig sp cfg) r e w = collectConfigEntry sp r e w := by
  simp [collectConfigEntry, collectSwitch, collectEm, collectTemperature, withConfig]

theorem collectConfig_withConfig (sp : ShellyPlug) (cfg : List (String × Json)) (r : Nat)
    (l : List (String × Json)) (w : World) :
    collectConfig (withConfig sp cfg) r l w = collectConfig sp r l w := by
  simp [collectConfig, collectConfigEntry_withConfig]

theorem collectConfig_skip (sp : ShellyPlug) (r : Nat) (pre post : List (String × Json))
    (e : String × Json) (w : World) (h : ∀ w0, collectConfigEntry sp r e w0 = w0) :
    collectConfig sp r (pre ++ e :: post) w = collectConfig sp r (pre ++ post) w := by
  simp [collectConfig, List.foldl_append, h]

theorem collectFromTargetGen2_skip (sp : ShellyPlug) (target : DiscoveryTarget) (il r : Nat)
    (pre post : List (String × Json)) (e : String × Json) (w : World)
    (h : ∀ w0, collectConfigEntry sp r e w0 = w0) :
    collectFromTargetGen2 (withConfig sp (pre ++ e :: post)) target il r w =
      collectFromTargetGen2 (withConfig sp (pre ++ post)) target il r w := by
  have h1 : ∀ cfg, collectFromTargetGen2 (withConfig sp cfg) target il r w =
      collectConfig sp r cfg (collectWifiStatus sp r (collectSysStatus sp r
        ((w.gaugeSet Family.info il 1).emit (Event.call Call.GetShellyConfig)))) := by
    intro cfg
    have hs : ∀ w0, collectSysStatus (withConfig sp cfg) r w0 = collectSysStatus sp r w0 := by
      intro w0; simp [collectSysStatus, withConfig]
    have hw : ∀ w0, collectWifiStatus (withConfig sp cfg) r w0 = collectWifiStatus sp r w0 := by
      intro w0; simp [collectWifiStatus, withConfig]
    have hg : (withConfig sp cfg).shellyProber.GetShellyConfig = Except.ok cfg := rfl
    unfold collectFromTargetGen2
    simp only [hg, hs, hw, collectConfig_withConfig]
  rw [h1, h1, collectConfig_skip sp r pre post e _ h]

theorem newEvents_self (w : World) : newEvents w w = [] := by
  simp [newEvents]

/-- An entry whose value does not decode, under a recognized key (`switch:`, `em:`,
`temperature:`) as under any other, leaves the world as it was: its iteration makes no
status call, writes no sample and writes no log line, and the pass over a config with
the entry is, action for action, the pass over the config without it. -/
theorem undecodable_entry_is_skipped (sp : ShellyPlug) (target : DiscoveryTarget)
    (infoLabels targetLabels : Nat) (w : World) (pre post : List (String × Json))
    (entry : String × Json) (msg : String)
    (hd : (decodeShellyConfigValueToItem entry.2).2 = some msg) :
    collectConfigEntry sp targetLabels entry w = w ∧
      entryActions sp targetLabels entry w = [] ∧
      logLines (entryActions sp targetLabels entry w) = [] ∧
      calls (entryActions sp targetLabels entry w) = [] ∧
      samples (entryActions sp targetLabels entry w) = [] ∧
      collectFromTargetGen2 (withConfig sp (pre ++ entry :: post)) target infoLabels
          targetLabels w =
        collectFromTargetGen2 (withConfig sp (pre ++ post)) target infoLabels targetLabels w := by
  have hd2 : decodeShellyConfigValueToItem entry.2 =
      ((decodeShellyConfigValueToItem entry.2).1, some msg) := by
    rw [← hd]
  have h : ∀ w0, collectConfigEntry sp targetLabels entry w0 = w0 := by
    intro w0
    unfold collectConfigEntry collectSwitch collectEm collectTemperature
    rw [hd2]
    simp
  have ha : entryActions sp targetLabels entry w = [] := by
    rw [entryActions, h w, newEvents_self]
  refine ⟨h w, ha, ?_, ?_, ?_,
    collectFromTargetGen2_skip sp target infoLabels targetLabels pre post entry w h⟩ <;>
    rw [ha] <;> rfl

/-- The entry `switch:0` whose value is a string, in front of the entry `temperature:1`:
the pass over both is the pass over `temperature:1` alone. -/
theorem undecodable_entry_is_skipped_witness :
    collectFromTargetGen2
        (withConfig { shellyProber := liveProber [], ServiceDiscovery := true }
          ([] ++ ("switch:0", Json.str "kettle") :: [("temperature:1", configItem 1 "probe")]))
        { Address := "10.0.0.1" } 0 1 (startWorld [] []) =
      collectFromTargetGen2
        (withConfig { shellyProber := liveProber [], ServiceDiscovery := true }
          ([] ++ [("temperature:1", configItem 1 "probe")]))
        { Address := "10.0.0.1" } 0 1 (startWorld [] []) :=
  (undecodable_entry_is_skipped { shellyProber := liveProber [], ServiceDiscovery := true }
    { Address := "10.0.0.1" } 0 1 (startWorld [] []) []
    [("temperature:1", configItem 1 "probe")] ("switch:0", Json.str "kettle")
    "json: cannot unmarshal value into Go value of type shellyGen2ConfigValue"
    rfl).2.2.2.2.2

/-- C7 fails on the code in its log line.  The config holds the one entry `switch:0`
whose value is the string kettle: the key is recognized, the decoding returns an error,
and the pass writes no log line (its only calls are the config, system and wifi calls,
all answered), where the claim asks for the failure to be logged.  The sibling failure of
the same case does log: with the value of id 0 and the switch status call failing, the
pass writes the line `failed to decode switchStatus: timeout`. -/
theorem undecodable_entry_is_not_logged :
    (decodeShellyConfigValueToItem (Json.str "kettle")).2 ≠ none ∧
      HasPrefix "switch:0" "switch:" = true ∧
      logLines (passActions
        { shellyProber := liveProber [("switch:0", Json.str "kettle")],
          ServiceDiscovery := true }
        { Address := "10.0.0.1" } 0 1 (startWorld [] [])) = [] ∧
      calls (passActions
        { shellyProber := liveProber [("switch:0", Json.str "kettle")],
          ServiceDiscovery := true }
        { Address := "10.0.0.1" } 0 1 (startWorld [] [])) =
        [Call.GetShellyConfig, Call.GetSysStatus, Call.GetWifiStatus] ∧
      logLines (passActions
        (failUnit
          { shellyProber := liveProber [("switch:0", configItem 0 "kettle")],
            ServiceDiscovery := true }
          (StatusUnit.switch 0) "timeout")
        { Address := "10.0.0.1" } 0 1 (startWorld [] [])) =
        ["failed to decode switchStatus: timeout"] := by
  refine ⟨?_, ?_, ?_, ?_, ?_⟩ <;> decide

/-- C8: an entry whose key starts with none of `switch:`, `em:` and `temperature:` is
passed over without a trace: its iteration leaves the world as it was, so it makes no
status call, writes no sample and writes no log line, and the pass over a config with
the entry is, action for action, the pass over the config without it. -/
theorem unrecognized_entry_is_skipped (sp : ShellyPlug) (target : DiscoveryTarget)
    (infoLabels targetLabels : Nat) (w : World) (pre post : List (String × Json))
    (entry : String × Json)
    (h1 : HasPrefix entry.1 "switch:" = false) (h2 : HasPrefix entry.1 "em:" = false)
    (h3 : HasPrefix entry.1 "temperature:" = false) :
    collectConfigEntry sp targetLabels entry w = w ∧
      entryActions sp targetLabels entry w = [] ∧
      calls (entryActions sp targetLabels entry w) = [] ∧
      samples (entryActions sp targetLabels entry w) = [] ∧
      logLines (entryActions sp targetLabels entry w) = [] ∧
      collectFromTargetGen2 (withConfig sp (pre ++ entry :: post)) target infoLabels
          targetLabels w =
        collectFromTargetGen2 (withConfig sp (pre ++ post)) target infoLabels targetLabels w := by
  have h : ∀ w0, collectConfigEntry sp targetLabels entry w0 = w0 := by
    intro w0
    simp [collectConfigEntry, h1, h2, h3]
  have ha : entryActions sp targetLabels entry w = [] := by
    rw [entryActions, h w, newEvents_self]
  refine ⟨h w, ha, ?_, ?_, ?_,
    collectFromTargetGen2_skip sp target infoLabels targetLabels pre post entry w h⟩ <;>
    rw [ha] <;> rfl

/-- C8 at a config that holds the unknown kind `input:0` before `switch:0`: the pass is
the pass over the config of `switch:0` alone. -/
theorem unrecognized_entry_is_skipped_witness :
    collectFromTargetGen2
        (withConfig { shellyProber := liveProber [], ServiceDiscovery := true }
          ([] ++ ("input:0", configItem 0 "button") :: [("switch:0", configItem 0 "kettle")]))
        { Address := "10.0.0.1" } 0 1 (startWorld [] []) =
      collectFromTargetGen2
        (withConfig { shellyProber := liveProber [], ServiceDiscovery := true }
          ([] ++ [("switch:0", configItem 0 "kettle")]))
        { Address := "10.0.0.1" } 0 1 (startWorld [] []) :=
  (unrecognized_entry_is_skipped { shellyProber := liveProber [], ServiceDiscovery := true }
    { Address := "10.0.0.1" } 0 1 (startWorld [] []) []
    [("switch:0", configItem 0 "kettle")] ("input:0", configItem 0 "button")
    (by decide) (by decide) (by decide)).2.2.2.2.2

/-! ## C9: the id label of a component sample -/

theorem hasPrefix_temperature_not_switch (key : String)
    (h : HasPrefix key "temperature:" = true) : HasPrefix key "switch:" = false := by
  have e1 : "temperature:".data =
      ['t', 'e', 'm', 'p', 'e', 'r', 'a', 't', 'u', 'r', 'e', ':'] := rfl
  have e2 : "switch:".data = ['s', 'w', 'i', 't', 'c', 'h', ':'] := rfl
  unfold HasPrefix at *
  rw [e1] at h
  rw [e2]
  cases hd : key.data with
  | nil => simp [hd] at h
  | cons c cs =>
    rw [hd] at h
    simp only [List.isPrefixOf, Bool.and_eq_true, beq_iff_eq] at h
    have hc : c = 't' := h.1.symm
    subst hc
    simp [List.isPrefixOf]

theorem hasPrefix_temperature_not_em (key : String)
    (h : HasPrefix key "temperature:" = true) : HasPrefix key "em:" = false := by
  have e1 : "temperature:".data =
      ['t', 'e', 'm', 'p', 'e', 'r', 'a', 't', 'u', 'r', 'e', ':'] := rfl
  have e2 : "em:".data = ['e', 'm', ':'] := rfl
  unfold HasPrefix at *
  rw [e1] at h
  rw [e2]
  cases hd : key.data with
  | nil => simp [hd] at h
  | cons c cs =>
    rw [hd] at h
    simp only [List.isPrefixOf, Bool.and_eq_true, beq_iff_eq] at h
    have hc : c = 't' := h.1.symm
    subst hc
    simp [List.isPrefixOf]

theorem switch_id_ne_em_id (a b : String) : "switch:" ++ a ≠ "em:" ++ b := by
  intro e
  have h := congrArg String.data e
  have e1 : "switch:".data = ['s', 'w', 'i', 't', 'c', 'h', ':'] := rfl
  have e2 : "em:".data = ['e', 'm', ':'] := rfl
  simp [String.data_append, e1, e2] at h

theorem switch_id_ne_sensor_id (a b : String) : "switch:" ++ a ≠ "sensor:" ++ b := by
  intro e
  have h := congrArg String.data e
  have e1 : "switch:".data = ['s', 'w', 'i', 't', 'c', 'h', ':'] := rfl
  have e2 : "sensor:".data = ['s', 'e', 'n', 's', 'o', 'r', ':'] := rfl
  simp [String.data_append, e1, e2] at h

theorem em_id_ne_sensor_id (a b : String) : "em:" ++ a ≠ "sensor:" ++ b := by
  intro e
  have h := congrArg String.data e
  have e1 : "em:".data = ['e', 'm', ':'] := rfl
  have e2 : "sensor:".data = ['s', 'e', 'n', 's', 'o', 'r', ':'] := rfl
  simp [String.data_append, e1, e2] at h

theorem labels_of_phaseEvents (l : Labels) (c a t p f v : Float64) :
    ∀ s ∈ samples (phaseEvents l c a t p f v), s.2.1 = l := by
  intro s hs
  simp only [samples, phaseEvents, List.filterMap_cons, List.filterMap_nil, List.mem_cons,
    List.not_mem_nil, or_false] at hs
  rcases hs with rfl | rfl | rfl | rfl | rfl | rfl <;> rfl

theorem length_samples_phaseEvents (l : Labels) (c a t p f v : Float64) :
    (samples (phaseEvents l c a t p f v)).length = 6 := by
  simp [samples, phaseEvents]

/-- C9, as amended: every sample of a switch entry carries the id label `switch:<id>`,
every phase sample of an em entry (its first eighteen samples) the id label
`em:<id>:A`, `em:<id>:B` or `em:<id>:C`, and every sample of a temperature entry the id
label `sensor:<id>` (the prefix is `sensor:`, not the `temperature:` of the config key),
where `<id>` is the numeric id of the decoded value.  Ids of different kinds never give
the same id label, whatever the numbers. -/
theorem component_id_labels (sp : ShellyPlug) (targetLabels : Nat) (w : World) (key : String)
    (configValue : Json) (configData : shellyGen2ConfigValue)
    (hr : targetLabels < w.maps.length)
    (hd : decodeShellyConfigValueToItem configValue = (configData, none)) :
    (HasPrefix key "switch:" = true →
        ∀ s ∈ samples (entryActions sp targetLabels (key, configValue) w),
          Labels.get s.2.1 "id" = some ("switch:" ++ toString configData.Id)) ∧
      (HasPrefix key "em:" = true →
        ∀ s ∈ (samples (entryActions sp targetLabels (key, configValue) w)).take 18,
          ∃ phase ∈ ["A", "B", "C"],
            Labels.get s.2.1 "id" = some ("em:" ++ toString configData.Id ++ ":" ++ phase)) ∧
      (HasPrefix key "temperature:" = true →
        ∀ s ∈ samples (entryActions sp targetLabels (key, configValue) w),
          Labels.get s.2.1 "id" = some ("sensor:" ++ toString configData.Id)) ∧
      (∀ (i j : Int) (phase : String),
        "switch:" ++ toString i ≠ "em:" ++ toString j ++ ":" ++ phase ∧
          "switch:" ++ toString i ≠ "sensor:" ++ toString j ∧
          "em:" ++ toString i ++ ":" ++ phase ≠ "sensor:" ++ toString j) := by
  have ha := entryActions_eq sp targetLabels (key, configValue) w hr
  refine ⟨?_, ?_, ?_, ?_⟩
  · intro hk s hs
    rw [ha] at hs
    simp only [entryEvents, hk, if_true, switchEvents, hd] at hs
    rcases hf : sp.shellyProber.GetSwitchStatus configData.Id with e | res
    · simp [hf, samples] at hs
    · simp only [hf, samples, List.filterMap_cons, List.filterMap_nil, List.mem_cons,
        List.not_mem_nil, or_false] at hs
      rcases hs with rfl | rfl | rfl
      · exact get_id_componentLabels_source _ _ _ _
      · exact get_id_componentLabels _ _ _
      · exact get_id_componentLabels _ _ _
  · intro hk s hs
    rw [ha] at hs
    simp only [entryEvents, hasPrefix_em_not_switch key hk, hk, if_true, emEvents, hd,
      Bool.false_eq_true, if_false] at hs
    rcases hf : sp.shellyProber.GetEmStatus configData.Id with e | res
    · simp [hf, samples] at hs
    · have e : ∀ x : String, "em:" ++ toString configData.Id ++ ":" ++ x =
          "em:" ++ toString configData.Id ++ (":" ++ x) := by
        intro x; rw [String.append_assoc]
      have eA : (":" ++ "A" : String) = ":A" := by decide
      have eB : (":" ++ "B" : String) = ":B" := by decide
      have eC : (":" ++ "C" : String) = ":C" := by decide
      simp only [hf] at hs
      have hsplit : ∀ (x y z t : List (Family × Labels × Float64)),
          x.length = 6 → y.length = 6 → z.length = 6 →
          (x ++ y ++ z ++ t).take 18 = x ++ y ++ z := by
        intro x y z t hx hy hz
        have hl : (x ++ y ++ z).length = 18 := by simp [hx, hy, hz]
        rw [← hl, List.take_left]
      have hsam : ∀ (l : List Event), samples (Event.call (Call.GetEmStatus configData.Id) :: l) =
          samples l := by
        intro l; simp [samples]
      rw [hsam, samples_append, samples_append, samples_append,
        hsplit _ _ _ _ (length_samples_phaseEvents _ _ _ _ _ _ _)
          (length_samples_phaseEvents _ _ _ _ _ _ _)
          (length_samples_phaseEvents _ _ _ _ _ _ _)] at hs
      simp only [List.mem_append] at hs
      rcases hs with (hs | hs) | hs
      · refine ⟨"A", by simp, ?_⟩
        rw [labels_of_phaseEvents _ _ _ _ _ _ _ s hs, get_id_componentLabels, e, eA]
      · refine ⟨"B", by simp, ?_⟩
        rw [labels_of_phaseEvents _ _ _ _ _ _ _ s hs, get_id_componentLabels, e, eB]
      · refine ⟨"C", by simp, ?_⟩
        rw [labels_of_phaseEvents _ _ _ _ _ _ _ s hs, get_id_componentLabels, e, eC]
  · intro hk s hs
    rw [ha] at hs
    simp only [entryEvents, hasPrefix_temperature_not_switch key hk,
      hasPrefix_temperature_not_em key hk, hk, if_true, temperatureEvents, hd,
      Bool.false_eq_true, if_false] at hs
    rcases hf : sp.shellyProber.GetTemperatureStatus configData.Id with e | res
    · simp [hf, samples] at hs
    · simp only [hf, samples, List.filterMap_cons, List.filterMap_nil, List.mem_cons,
        List.not_mem_nil, or_false] at hs
      rcases hs with rfl
      exact get_id_componentLabels _ _ _
  · intro i j phase
    refine ⟨?_, switch_id_ne_sensor_id _ _, ?_⟩
    · rw [String.append_assoc, String.append_assoc]
      exact switch_id_ne_em_id _ _
    · rw [String.append_assoc, String.append_assoc]
      exact em_id_ne_sensor_id _ _

/-- The amended C9 at the entry `temperature:1` of name probe: the sample it writes is
in the trace, and its id label is `sensor:1`. -/
theorem component_id_labels_witness :
    (Family.temp, [("id", "sensor:1"), ("name", "probe")], (21 : Float64)) ∈
        samples (entryActions { shellyProber := liveProber [], ServiceDiscovery := true } 1
          ("temperature:1", configItem 1 "probe") (startWorld [] [])) ∧
      Labels.get [("id", "sensor:1"), ("name", "probe")] "id" =
        some ("sensor:" ++ toString (1 : Int)) :=
  ⟨by decide,
    (component_id_labels { shellyProber := liveProber [], ServiceDiscovery := true } 1
      (startWorld [] []) "temperature:1" (configItem 1 "probe") { Id := 1, Name := "probe" }
      (by decide) (by decide)).2.2.1 (by decide)
      (Family.temp, [("id", "sensor:1"), ("name", "probe")], (21 : Float64)) (by decide)⟩

/-- C9 as stated fails for the temperature kind: the sample of the config entry
`temperature:1` carries the id label `sensor:1`, which does not start with the kind
`temperature:` of the config key. -/
theorem temperature_id_label_is_sensor :
    samples (entryActions { shellyProber := liveProber [], ServiceDiscovery := true } 1
        ("temperature:1", configItem 1 "probe") (startWorld [] [])) =
      [(Family.temp, [("id", "sensor:1"), ("name", "probe")], 21)] ∧
      HasPrefix "sensor:1" "temperature:" = false := by
  constructor <;> decide

/-! ## C10: the label keys of every write -/

theorem mem_keys_componentLabels (tl : Labels) (id name k : String) :
    k ∈ Labels.keys (componentLabels tl id name) ↔
      (k ∈ Labels.keys tl ∨ k ∈ ["id", "name"]) := by
  unfold componentLabels
  rw [Labels.mem_keys_assign, Labels.mem_keys_assign]
  simp only [List.mem_cons, List.mem_singleton, List.not_mem_nil, or_false]
  tauto

theorem mem_keys_componentLabels_source (tl : Labels) (id name source k : String) :
    k ∈ Labels.keys (Labels.assign (componentLabels tl id name) "source" source) ↔
      (k ∈ Labels.keys tl ∨ k ∈ ["id", "name", "source"]) := by
  rw [Labels.mem_keys_assign, mem_keys_componentLabels]
  simp only [List.mem_cons, List.mem_singleton, List.not_mem_nil, or_false]
  tauto

theorem keysFrom_phaseEvents (tl : Labels) (id name : String) (c a t p f v : Float64) :
    ∀ e ∈ phaseEvents (componentLabels tl id name) c a t p f v, keysFrom tl e := by
  intro e he
  simp only [phaseEvents, List.mem_cons, List.not_mem_nil, or_false] at he
  rcases he with rfl | rfl | rfl | rfl | rfl | rfl <;>
    exact ⟨by decide, fun k => mem_keys_componentLabels tl id name k⟩

theorem keysFrom_sysEvents (sp : ShellyPlug) (tl : Labels) :
    ∀ e ∈ sysEvents sp tl, keysFrom tl e := by
  intro e he
  unfold sysEvents at he
  rcases hf : sp.shellyProber.GetSysStatus with err | res
  · simp only [hf, List.mem_cons, List.not_mem_nil, or_false] at he
    rcases he with rfl | rfl <;> trivial
  · simp only [hf, List.mem_cons, List.not_mem_nil, or_false] at he
    rcases he with rfl | rfl | rfl | rfl | rfl | rfl | rfl | rfl
    · trivial
    all_goals exact ⟨by decide, fun k => by simp [addedKeys]⟩

theorem keysFrom_wifiEvents (sp : ShellyPlug) (tl : Labels) :
    ∀ e ∈ wifiEvents sp tl, keysFrom tl e := by
  intro e he
  unfold wifiEvents at he
  rcases hf : sp.shellyProber.GetWifiStatus with err | res
  · simp only [hf, List.mem_cons, List.not_mem_nil, or_false] at he
    rcases he with rfl | rfl <;> trivial
  · simp only [hf, List.mem_cons, List.not_mem_nil, or_false] at he
    rcases he with rfl | rfl
    · trivial
    · exact ⟨by decide, fun k => by simp [addedKeys, Labels.mem_keys_assign]⟩

theorem keysFrom_switchEvents (sp : ShellyPlug) (tl : Labels) (v : Json) :
    ∀ e ∈ switchEvents sp tl v, keysFrom tl e := by
  intro e he
  unfold switchEvents at he
  rcases hd : decodeShellyConfigValueToItem v with ⟨cd, _ | msg⟩
  · rcases hf : sp.shellyProber.GetSwitchStatus cd.Id with err | res
    · simp only [hd, hf, List.mem_cons, List.not_mem_nil, or_false] at he
      rcases he with rfl | rfl <;> trivial
    · simp only [hd, hf, List.mem_cons, List.not_mem_nil, or_false] at he
      rcases he with rfl | rfl | rfl | rfl
      · trivial
      · exact ⟨by decide, fun k => mem_keys_componentLabels_source tl _ _ _ k⟩
      · exact ⟨by decide, fun k => mem_keys_componentLabels tl _ _ k⟩
      · exact ⟨by decide, fun k => mem_keys_componentLabels tl _ _ k⟩
  · simp [hd] at he

theorem keysFrom_emEvents (sp : ShellyPlug) (tl : Labels) (v : Json) :
    ∀ e ∈ emEvents sp tl v, keysFrom tl e := by
  intro e he
  unfold emEvents at he
  rcases hd : decodeShellyConfigValueToItem v with ⟨cd, _ | msg⟩
  · rcases hf : sp.shellyProber.GetEmStatus cd.Id with err | res
    · simp only [hd, hf, List.mem_cons, List.not_mem_nil, or_false] at he
      rcases he with rfl | rfl <;> trivial
    · simp only [hd, hf, List.mem_cons, List.mem_append, List.not_mem_nil, or_false] at he
      rcases he with rfl | ((he | he) | he) | he | he
      · trivial
      · exact keysFrom_phaseEvents tl _ _ _ _ _ _ _ _ e he
      · exact keysFrom_phaseEvents tl _ _ _ _ _ _ _ _ e he
      · exact keysFrom_phaseEvents tl _ _ _ _ _ _ _ _ e he
      · rw [he]
        exact ⟨by decide, fun k => mem_keys_componentLabels tl _ _ k⟩
      · rw [he]
        exact ⟨by decide, fun k => mem_keys_componentLabels tl _ _ k⟩
  · simp [hd] at he

theorem keysFrom_temperatureEvents (sp : ShellyPlug) (tl : Labels) (v : Json) :
    ∀ e ∈ temperatureEvents sp tl v, keysFrom tl e := by
  intro e he
  unfold temperatureEvents at he
  rcases hd : decodeShellyConfigValueToItem v with ⟨cd, _ | msg⟩
  · rcases hf : sp.shellyProber.GetTemperatureStatus cd.Id with err | res
    · simp only [hd, hf, List.mem_cons, List.not_mem_nil, or_false] at he
      rcases he with rfl | rfl <;> trivial
    · simp only [hd, hf, List.mem_cons, List.not_mem_nil, or_false] at he
      rcases he with rfl | rfl
      · trivial
      · exact ⟨by decide, fun k => mem_keys_componentLabels tl _ _ k⟩
  · simp [hd] at he

theorem keysFrom_entryEvents (sp : ShellyPlug) (tl : Labels) (entry : String × Json) :
    ∀ e ∈ entryEvents sp tl entry, keysFrom tl e := by
  intro e he
  unfold entryEvents at he
  by_cases h1 : HasPrefix entry.1 "switch:" = true
  · rw [if_pos h1] at he
    exact keysFrom_switchEvents sp tl entry.2 e he
  · rw [if_neg h1] at he
    by_cases h2 : HasPrefix entry.1 "em:" = true
    · rw [if_pos h2] at he
      exact keysFrom_emEvents sp tl entry.2 e he
    · rw [if_neg h2] at he
      by_cases h3 : HasPrefix entry.1 "temperature:" = true
      · rw [if_pos h3] at he
        exact keysFrom_temperatureEvents sp tl entry.2 e he
      · rw [if_neg h3] at he
        simp at he

theorem mem_samples (tr : List Event) (s : Family × Labels × Float64) :
    s ∈ samples tr ↔ Event.gauge s.1 s.2.1 s.2.2 ∈ tr := by
  induction tr with
  | nil => simp [samples]
  | cons e rest ih =>
    have hc : samples (e :: rest) = samples [e] ++ samples rest := by
      rw [← samples_append]; rfl
    rw [hc, List.mem_append, ih, List.mem_cons]
    cases e with
    | gauge f l v =>
      obtain ⟨f', l', v'⟩ := s
      simp [samples]
    | call c => simp [samples]
    | errorf m => simp [samples]
    | markTarget a st => simp [samples]

/-- C10, as amended: a pass changes none of the label maps that exist when it starts,
so the map `targetLabels` is the same after the pass.  The info sample is written under
the info labels; every other sample is written under a label map whose keys are those of
the target labels together with the keys its family adds: none for the sys families,
`ssid` for wifi.rssi, `id`, `name` and `source` for switch.on, `id` and `name` for the
power families and the temperature.  When neither the target labels nor the info labels
hold `source`, that key appears on switch.on samples only; when neither holds `ssid`,
that key appears on wifi.rssi samples only. -/
theorem label_keys_of_pass (sp : ShellyPlug) (target : DiscoveryTarget)
    (infoLabels targetLabels : Nat) (w : World) (hr : targetLabels < w.maps.length) :
    (collectFromTargetGen2 sp target infoLabels targetLabels w).labelsAt targetLabels =
        w.labelsAt targetLabels ∧
      (∀ r, r < w.maps.length →
        (collectFromTargetGen2 sp target infoLabels targetLabels w).labelsAt r =
          w.labelsAt r) ∧
      (∀ s ∈ samples (passActions sp target infoLabels targetLabels w),
        (s.1 = Family.info ∧ s.2.1 = w.labelsAt infoLabels) ∨
          (s.1 ≠ Family.info ∧
            ∀ k, k ∈ Labels.keys s.2.1 ↔
              (k ∈ Labels.keys (w.labelsAt targetLabels) ∨ k ∈ addedKeys s.1))) ∧
      ("source" ∉ Labels.keys (w.labelsAt targetLabels) →
        "source" ∉ Labels.keys (w.labelsAt infoLabels) →
        ∀ s ∈ samples (passActions sp target infoLabels targetLabels w),
          "source" ∈ Labels.keys s.2.1 → s.1 = Family.switchOn) ∧
      ("ssid" ∉ Labels.keys (w.labelsAt targetLabels) →
        "ssid" ∉ Labels.keys (w.labelsAt infoLabels) →
        ∀ s ∈ samples (passActions sp target infoLabels targetLabels w),
          "ssid" ∈ Labels.keys s.2.1 → s.1 = Family.wifiRssi) := by
  have hmaps : ∃ extra,
      (collectFromTargetGen2 sp target infoLabels targetLabels w).maps = w.maps ++ extra := by
    rcases hc : sp.shellyProber.GetShellyConfig with err | cfg
    · exact ⟨[], by
        simp [(collectFromTargetGen2_error sp target infoLabels targetLabels w err hc).2]⟩
    · exact (collectFromTargetGen2_ok sp target infoLabels targetLabels w cfg hr hc).2
  have hkeep : ∀ r, r < w.maps.length →
      (collectFromTargetGen2 sp target infoLabels targetLabels w).labelsAt r =
        w.labelsAt r := by
    intro r hlt
    obtain ⟨extra, hx⟩ := hmaps
    simp [World.labelsAt, hx, heapRead_append_left, hlt]
  have hkeys : ∀ s ∈ samples (passActions sp target infoLabels targetLabels w),
      (s.1 = Family.info ∧ s.2.1 = w.labelsAt infoLabels) ∨
        (s.1 ≠ Family.info ∧
          ∀ k, k ∈ Labels.keys s.2.1 ↔
            (k ∈ Labels.keys (w.labelsAt targetLabels) ∨ k ∈ addedKeys s.1)) := by
    intro s hs
    rw [mem_samples] at hs
    rcases hc : sp.shellyProber.GetShellyConfig with err | cfg
    · have ht := (collectFromTargetGen2_error sp target infoLabels targetLabels w err hc).1
      simp only [passActions, newEvents, ht, List.drop_left] at hs
      left
      by_cases hsd : sp.ServiceDiscovery = true <;>
        simp [hsd] at hs <;> exact ⟨hs.1, hs.2.1⟩
    · rw [passActions_ok sp target infoLabels targetLabels w cfg hr hc] at hs
      simp only [List.mem_cons, List.mem_append, List.mem_flatMap] at hs
      rcases hs with hs | hs | (hs | hs) | ⟨entry, _, hs⟩
      · left
        injection hs with h1 h2 h3
        exact ⟨h1, h2⟩
      · cases hs
      · right
        exact keysFrom_sysEvents sp _ _ hs
      · right
        exact keysFrom_wifiEvents sp _ _ hs
      · right
        exact keysFrom_entryEvents sp _ entry _ hs
  refine ⟨hkeep targetLabels hr, hkeep, hkeys, ?_, ?_⟩
  · intro h1 h2 s hs hk
    rcases hkeys s hs with ⟨_, hl⟩ | ⟨_, hl⟩
    · rw [hl] at hk
      exact absurd hk h2
    · have := (hl "source").1 hk
      rcases this with h | h
      · exact absurd h h1
      · obtain ⟨f, l, v⟩ := s
        cases f <;> simp [addedKeys] at h ⊢
  · intro h1 h2 s hs hk
    rcases hkeys s hs with ⟨_, hl⟩ | ⟨_, hl⟩
    · rw [hl] at hk
      exact absurd hk h2
    · have := (hl "ssid").1 hk
      rcases this with h | h
      · exact absurd h h1
      · obtain ⟨f, l, v⟩ := s
        cases f <;> simp [addedKeys] at h ⊢

/-- The amended C10 on the example device with the one target label `target`: after the
pass the map of the target labels still holds that one binding, every sample that
carries `source` is a switch.on sample, and every sample that carries `ssid` is a
wifi.rssi sample. -/
theorem label_keys_of_pass_witness :
    (collectFromTargetGen2 examplePlug { Address := "10.0.0.1" } 0 1
        (startWorld [("target", "10.0.0.1")] [("target", "10.0.0.1")])).labelsAt 1 =
        [("target", "10.0.0.1")] ∧
      (samples (passActions examplePlug { Address := "10.0.0.1" } 0 1
        (startWorld [("target", "10.0.0.1")] [("target", "10.0.0.1")]))).all
          (fun s => decide ("source" ∈ Labels.keys s.2.1 → s.1 = Family.switchOn)) = true ∧
      (samples (passActions examplePlug { Address := "10.0.0.1" } 0 1
        (startWorld [("target", "10.0.0.1")] [("target", "10.0.0.1")]))).all
          (fun s => decide ("ssid" ∈ Labels.keys s.2.1 → s.1 = Family.wifiRssi)) = true :=
  ⟨(label_keys_of_pass examplePlug { Address := "10.0.0.1" } 0 1
      (startWorld [("target", "10.0.0.1")] [("target", "10.0.0.1")]) (by decide)).1,
    List.all_eq_true.2 (fun s hs => decide_eq_true
      ((label_keys_of_pass examplePlug { Address := "10.0.0.1" } 0 1
        (startWorld [("target", "10.0.0.1")] [("target", "10.0.0.1")])
        (by decide)).2.2.2.1 (by decide) (by decide) s hs)),
    List.all_eq_true.2 (fun s hs => decide_eq_true
      ((label_keys_of_pass examplePlug { Address := "10.0.0.1" } 0 1
        (startWorld [("target", "10.0.0.1")] [("target", "10.0.0.1")])
        (by decide)).2.2.2.2 (by decide) (by decide) s hs))⟩

/-- C10 as stated fails in its last part when the target labels themselves hold `ssid`:
with the target labels of the one binding `ssid` = preset, the sys.unixtime sample is
written under a label map that holds `ssid`, though its family is not wifi.rssi. -/
theorem ssid_in_target_labels_reaches_sys_samples :
    (Family.sysUnixtime, [("ssid", "preset")], (1700000000 : Float64)) ∈
        samples (passActions examplePlug { Address := "10.0.0.1" } 0 1
          (startWorld [("target", "10.0.0.1")] [("ssid", "preset")])) ∧
      "ssid" ∈ Labels.keys [("ssid", "preset")] ∧
      Family.sysUnixtime ≠ Family.wifiRssi := by
  refine ⟨?_, ?_, ?_⟩ <;> decide

end Gen2
